import Mathlib

/-!
Verification of the upspring ad-source adapter / identity-resolution / caching core.

The definitions below are a shallow embedding of the two provider services
(`MetaAdsService` and `GoogleAdsService`) of the upspring server.  JS strings
are modelled as lists of UTF-16 code units (`List Nat`); JS truthiness of a
possibly-absent string (`undefined` and `""` are both falsy) is modelled
explicitly.  Effectful calls (the Apify actor client, the dataset fetch, the
clock, `Math.random`, `Date` parsing) are passed in as explicit environment
parameters, so every function is a pure, executable Lean function of its
inputs plus the recorded outcomes of its effects.
-/

namespace Upspring

/-- JS strings, as lists of UTF-16 code units. -/
abbrev Str := List Nat

/-- Encode a Lean string literal into the model (used for concrete inputs). -/
def str (s : String) : Str := s.data.map Char.toNat

/-- Code-unit level `toLowerCase` (ASCII letters; no other code unit the
services compare against is case-mapped). -/
def lowerCode (n : Nat) : Nat := if 65 ≤ n ∧ n ≤ 90 then n + 32 else n

/-- JS `String.prototype.toLowerCase`. -/
def jsToLower (s : Str) : Str := s.map lowerCode

/-- Whitespace code units removed by `trim`. -/
def isWs (n : Nat) : Bool := n == 32 || n == 9 || n == 10 || n == 13

/-- JS `String.prototype.trim`. -/
def jsTrim (s : Str) : Str := ((s.dropWhile isWs).reverse.dropWhile isWs).reverse

/-- JS `hay.startsWith needle`. -/
def startsWithL : Str → Str → Bool
  | _, [] => true
  | [], _ :: _ => false
  | a :: as, b :: bs => a == b && startsWithL as bs

/-- JS `hay.includes needle`. -/
def includesL : Str → Str → Bool
  | [], needle => needle.isEmpty
  | a :: as, needle => startsWithL (a :: as) needle || includesL as needle

/-- JS truthiness of a possibly-absent string: `undefined` and `""` are falsy. -/
def truthy : Option Str → Bool
  | none => false
  | some s => !s.isEmpty

/-- JS `a || b` on possibly-absent strings. -/
def jsOrS (a b : Option Str) : Option Str := if truthy a then a else b

/-- JS `a || b` where the right operand is a present string. -/
def jsOrD (a : Option Str) (b : Str) : Str :=
  match a with
  | some s => if s.isEmpty then b else s
  | none => b

/-- JS `a || b` on numbers where `0` is falsy (used for option defaulting). -/
def jsOrN (a : Option Nat) (b : Nat) : Nat :=
  match a with
  | some n => if n = 0 then b else n
  | none => b

/-! ### Brand cache stores

`MetaAdsService` keeps a `brands.json` map from normalized brand key to
`{pageId, name}`; `GoogleAdsService` keeps `{advertiserId, name, domain}`
entries in the same file.  The maps are modelled as insertion-ordered
association lists (JS object property order).  The `_metadata` block
(timestamps and counts) carries no claim-relevant information and is not
modelled. -/

/-- Meta brand cache entry (`BrandCacheEntry` in the service). -/
structure BrandCacheEntry where
  pageId : Str
  name : Str
deriving DecidableEq, Repr

/-- Google advertiser cache entry (`AdvertiserCacheEntry` in the service). -/
structure AdvertiserCacheEntry where
  advertiserId : Str
  name : Str
  domain : Str
deriving DecidableEq, Repr

/-- The `brands` map of the Meta service cache file. -/
abbrev Brands := List (Str × BrandCacheEntry)

/-- The `advertisers` map of the Google service cache file. -/
abbrev Advertisers := List (Str × AdvertiserCacheEntry)

/-- JS object property read `m[k]` on an insertion-ordered map. -/
def getEntry {α : Type} : List (Str × α) → Str → Option α
  | [], _ => none
  | (k', v) :: rest, k => if k' == k then some v else getEntry rest k

/-- JS object property write `m[k] = v` (overwrites in place, else appends). -/
def setEntry {α : Type} : List (Str × α) → Str → α → List (Str × α)
  | [], k, v => [(k, v)]
  | (k', v') :: rest, k, v =>
    if k' == k then (k', v) :: rest else (k', v') :: setEntry rest k v

/-- Cache key normalization used by both services: `toLowerCase().trim()`. -/
def normKey (s : Str) : Str := jsTrim (jsToLower s)

/-- `MetaAdsService.lookupBrandInCache`. -/
def lookupBrandInCache (cache : Brands) (brandName : Str) : Option BrandCacheEntry :=
  getEntry cache (normKey brandName)

/-- `MetaAdsService.saveBrandToCache`: does not overwrite an existing entry. -/
def saveBrandToCache (cache : Brands) (searchTerm pageId pageName : Str) : Brands :=
  match getEntry cache (normKey searchTerm) with
  | some _ => cache
  | none => cache ++ [(normKey searchTerm, ⟨pageId, pageName⟩)]

/-- `GoogleAdsService.lookupInCache`. -/
def lookupInCache (cache : Advertisers) (brandName : Str) : Option AdvertiserCacheEntry :=
  getEntry cache (normKey brandName)

/-- `GoogleAdsService.saveToCache`: assigns the entry unconditionally. -/
def saveToCache (cache : Advertisers) (brandName advertiserId displayName domain : Str) :
    Advertisers :=
  setEntry cache (normKey brandName) ⟨advertiserId, displayName, domain⟩

/-! ### Error taxonomy and the actor-run boundary -/

/-- `ApifyErrorCode` from `types/ads` (plus `USAGE_QUOTA_EXCEEDED`, which
`handleError` assigns). -/
inductive ApifyErrorCode where
  | INVALID_API_KEY
  | ACTOR_NOT_FOUND
  | RUN_FAILED
  | TIMEOUT
  | RATE_LIMIT
  | NO_RESULTS
  | NETWORK_ERROR
  | USAGE_QUOTA_EXCEEDED
  | UNKNOWN
deriving DecidableEq, Repr

/-- A thrown JS value: an `ApifyError` (message and code; the optional
`statusCode`/`details` payloads are never inspected by the services), a
generic `Error` (message), or a non-`Error` value. -/

inductive JsError where
  | apify (message : Str) (code : ApifyErrorCode)
  | generic (message : Str)
  | nonError
deriving DecidableEq, Repr

/-- Terminal and transient statuses of an Apify actor run. -/
inductive RunStatus where
  | READY | RUNNING | SUCCEEDED | FAILED | TIMING_OUT | TIMED_OUT | ABORTING | ABORTED
deriving DecidableEq, Repr

/-- The fields of an `ActorRun` the services read. -/
structure ActorRun where
  id : Str
  status : RunStatus
  defaultDatasetId : Str
deriving DecidableEq, Repr

/-- Case-insensitive message sniffing `message.toLowerCase().includes(needle)`. -/
def msgIncludes (msg : Str) (needle : String) : Bool :=
  includesL (jsToLower msg) (str needle)

/-- `MetaAdsService.isRetryableError`. -/
def isRetryableError : JsError → Bool
  | .apify _ code => code == .NETWORK_ERROR || code == .TIMEOUT
  | .generic msg =>
    msgIncludes msg "network" || msgIncludes msg "timeout" ||
    msgIncludes msg "econnreset" || msgIncludes msg "enotfound" ||
    msgIncludes msg "socket"
  | .nonError => false

/-- `MetaAdsService.isRateLimitError`. -/
def isRateLimitError : JsError → Bool
  | .apify _ code => code == .RATE_LIMIT
  | .generic msg =>
    msgIncludes msg "rate limit" || msgIncludes msg "too many requests" ||
    msgIncludes msg "429"
  | .nonError => false

/-- Outcome of one `client.actor(..).call(..)` invocation: the thrown value or
the completed run.  The environment maps each attempt number to its outcome. -/
abbrev AttemptOutcome := Except JsError ActorRun

instance {ε α : Type} [DecidableEq ε] [DecidableEq α] : DecidableEq (Except ε α) := fun a b =>
  match a, b with
  | .ok x, .ok y =>
    if h : x = y then isTrue (by rw [h]) else isFalse (by intro hc; cases hc; exact h rfl)
  | .error x, .error y =>
    if h : x = y then isTrue (by rw [h]) else isFalse (by intro hc; cases hc; exact h rfl)
  | .ok _, .error _ => isFalse (by intro hc; cases hc)
  | .error _, .ok _ => isFalse (by intro hc; cases hc)

/-- The message of the `ApifyError` thrown when a completed run reports
status `FAILED`. -/
def runFailedMsg : Str := str "Actor run failed with status: FAILED"

/-- The message of the `ApifyError` thrown when a completed run reports
status `TIMED-OUT`. -/
def runTimedOutMsg : Str := str "Actor run timed out"

/-- The body of the `try` block of `runActorWithRetry` at a given attempt:
call the actor, then throw on a terminal `FAILED` / `TIMED-OUT` status. -/
def attemptStep (env : Nat → AttemptOutcome) (attempt : Nat) : Except JsError ActorRun :=
  match env attempt with
  | .error e => .error e
  | .ok run =>
    if run.status == .FAILED then
      .error (.apify runFailedMsg .RUN_FAILED)
    else if run.status == .TIMED_OUT then
      .error (.apify runTimedOutMsg .TIMEOUT)
    else
      .ok run

/-- The recursion of `runActorWithRetry`, made structural on the fuel
`maxRetries - attempt` (the loop retries only while `attempt < maxRetries`,
so the zero-fuel fallback is never reached from `runActorWithRetry`). -/
def runActorRetryGo (maxRetries : Nat) (env : Nat → AttemptOutcome) :
    Nat → Nat → Except JsError ActorRun
  | fuel, attempt =>
    match attemptStep env attempt with
    | .ok run => .ok run
    | .error e =>
      if maxRetries ≤ attempt ∨ (isRetryableError e = false ∧ isRateLimitError e = false) then
        .error e
      else
        match fuel with
        | 0 => .error e
        | fuel' + 1 => runActorRetryGo maxRetries env fuel' (attempt + 1)

/-- `MetaAdsService.runActorWithRetry`: run the actor, re-throwing terminal
`FAILED`/`TIMED-OUT` statuses as `ApifyError`s, and retry while the caught
error is retryable or rate-limited and the attempt count is below
`maxRetries`; otherwise surface the error unchanged.  The backoff sleeps are
timing-only and do not affect the value computed; they are not modelled. -/
def runActorWithRetry (maxRetries : Nat) (env : Nat → AttemptOutcome)
    (attempt : Nat) : Except JsError ActorRun :=
  runActorRetryGo maxRetries env (maxRetries - attempt) attempt

/-! ### The canonical Ad data model (`types/ads.ts`) -/

/-- `AdPlatform`. -/
inductive AdPlatform where
  | facebook | instagram | messenger | audience_network
  | google_search | google_display | youtube | google_shopping
  | unknown
deriving DecidableEq, Repr

/-- `AdStatus`. -/
inductive AdStatus where
  | active | inactive | removed | unknown
deriving DecidableEq, Repr

/-- `AdFormat`. -/
inductive AdFormat where
  | image | video | carousel | collection | text | unknown
deriving DecidableEq, Repr

/-- `BrandSource`. -/
inductive BrandSource where
  | cached | discovered | not_verified
deriving DecidableEq, Repr

/-- The `type` of an `AdMedia` asset. -/
inductive MediaType where
  | image | video
deriving DecidableEq, Repr

/-- `AdMedia` (the `width`/`height` fields are never populated by either
normalizer and are omitted). -/
structure AdMedia where
  type : MediaType
  url : Str
  thumbnailUrl : Option Str := none
  duration : Option Nat := none
deriving DecidableEq, Repr

/-- `AdCallToAction`. -/
structure AdCallToAction where
  text : Option Str
  type : Option Str
  linkUrl : Option Str
deriving DecidableEq, Repr

/-- Gender targeting variants of `AdDemographics.gender`. -/
inductive GenderT where
  | all | male | female | unknown
deriving DecidableEq, Repr

/-- `AdDemographics`. -/
structure AdDemographics where
  ageRange : Option Str := none
  gender : Option GenderT := none
  regions : Option (List Str) := none
deriving DecidableEq, Repr

/-- The canonical `Ad` entity.  Dates are represented by the raw date string
selected by the field-priority chain together with its parse under the
engine's (fixed, input-determined) `Date` parser, which is passed in as a
parameter `dp`.  The `performanceSignals` field formats numeric ranges with
IEEE-754 `toFixed` arithmetic; no claim depends on it and it is not modelled.
`rawData` (a debug echo of the input) is likewise omitted. -/
structure Ad where
  id : Str
  adLibraryId : Option Str := none
  brandName : Str
  pageId : Option Str := none
  pageUrl : Option Str := none
  headline : Option Str := none
  primaryText : Option Str := none
  description : Option Str := none
  caption : Option Str := none
  callToAction : Option AdCallToAction := none
  imageUrl : Option Str := none
  videoUrl : Option Str := none
  media : List AdMedia := []
  platforms : List AdPlatform
  format : AdFormat
  startDate : Option Int := none
  endDate : Option Int := none
  status : AdStatus
  demographics : Option AdDemographics := none
  categories : Option (List Str) := none
  adLibraryUrl : Option Str := none
  snapshotUrl : Option Str := none
  fetchedAt : Nat
deriving DecidableEq, Repr

/-! ### Raw Meta (Apify) records -/

/-- An entry of `snapshot.images`. -/
structure SnapImage where
  resized_image_url : Option Str := none
  original_image_url : Option Str := none
deriving DecidableEq, Repr

/-- An entry of `snapshot.videos`. -/
structure SnapVideo where
  video_hd_url : Option Str := none
  video_sd_url : Option Str := none
  video_preview_image_url : Option Str := none
deriving DecidableEq, Repr

/-- An entry of `snapshot.cards`. -/
structure SnapCard where
  resized_image_url : Option Str := none
  video_preview_image_url : Option Str := none
  video_hd_url : Option Str := none
deriving DecidableEq, Repr

/-- The nested `snapshot` block produced by some Apify actors
(`snapshot.body.text` is flattened to `body_text`). -/
structure Snapshot where
  page_profile_picture_url : Option Str := none
  page_name : Option Str := none
  body_text : Option Str := none
  cta_text : Option Str := none
  cta_type : Option Str := none
  caption : Option Str := none
  cards : Option (List SnapCard) := none
  images : Option (List SnapImage) := none
  videos : Option (List SnapVideo) := none
deriving DecidableEq, Repr

/-- An entry of the raw `videos` array. -/
structure RawVideo where
  url : Option Str := none
  thumbnailUrl : Option Str := none
  duration : Option Nat := none
deriving DecidableEq, Repr

/-- An entry of the raw generic `media` array. -/
structure RawMediaItem where
  type : Option Str := none
  url : Option Str := none
  thumbnailUrl : Option Str := none
deriving DecidableEq, Repr

/-- An entry of `demographicDistribution`. -/
structure DemoEntry where
  ageRange : Option Str := none
  gender : Option Str := none
deriving DecidableEq, Repr

/-- An entry of `regionDistribution`. -/
structure RegionEntry where
  region : Option Str := none
deriving DecidableEq, Repr

/-- The fields of `ApifyRawAdItem` (camelCase and snake_case variants) that
`MetaAdsService.normalizeAd` and its helpers read. -/
structure ApifyRawAdItem where
  id : Option Str := none
  adArchiveID : Option Str := none
  ad_archive_id : Option Str := none
  adid : Option Str := none
  pageID : Option Str := none
  page_id : Option Str := none
  pageName : Option Str := none
  page_name : Option Str := none
  pageUrl : Option Str := none
  adText : Option Str := none
  bodyText : Option Str := none
  primaryText : Option Str := none
  headline : Option Str := none
  linkTitle : Option Str := none
  linkDescription : Option Str := none
  linkCaption : Option Str := none
  linkUrl : Option Str := none
  ctaText : Option Str := none
  ctaType : Option Str := none
  imageUrl : Option Str := none
  images : Option (List Str) := none
  videoUrl : Option Str := none
  videos : Option (List RawVideo) := none
  media : Option (List RawMediaItem) := none
  platforms : Option (List Str) := none
  publisherPlatform : Option (List Str) := none
  publisher_platform : Option (List Str) := none
  adCreationTime : Option Str := none
  startDate : Option Str := none
  endDate : Option Str := none
  start_date : Option Str := none
  end_date : Option Str := none
  start_date_formatted : Option Str := none
  end_date_formatted : Option Str := none
  adDeliveryStartTime : Option Str := none
  adDeliveryStopTime : Option Str := none
  isActive : Option Bool := none
  isRunning : Option Bool := none
  is_active : Option Bool := none
  status : Option Str := none
  demographicDistribution : Option (List DemoEntry) := none
  regionDistribution : Option (List RegionEntry) := none
  adSnapshotUrl : Option Str := none
  adLibraryUrl : Option Str := none
  ad_library_url : Option Str := none
  category : Option Str := none
  categories : Option (List Str) := none
  snapshot : Option Snapshot := none
deriving DecidableEq, Repr

/-! ### Meta record normalizer helpers -/

/-- 32-bit signed wrap-around (JS `| 0` / `& hash` coercion). -/
def toInt32 (z : Int) : Int :=
  let m := z % 4294967296
  if 2147483648 ≤ m then m - 4294967296 else m

/-- One step of the `hashString` loop:
`hash = (hash << 5) - hash + char; hash = hash & hash`. -/
def hashStep (hash : Int) (c : Nat) : Int :=
  toInt32 (toInt32 (hash * 32) - hash + (c : Int))

/-- Hex digit of `toString(16)` (lowercase). -/
def hexDigit (d : Nat) : Nat := if d < 10 then 48 + d else 87 + d

/-- Hex rendering of a natural number, `Number.prototype.toString(16)`. -/
def toHexAux (n : Nat) (acc : Str) : Str :=
  if h : n = 0 then acc
  else toHexAux (n / 16) (hexDigit (n % 16) :: acc)
termination_by n
decreasing_by exact Nat.div_lt_self (Nat.pos_of_ne_zero h) (by omega)

/-- `Math.abs(hash).toString(16)`. -/
def toHexNat (n : Nat) : Str :=
  if n = 0 then [48] else toHexAux n []

/-- `MetaAdsService.hashString`, producing `generated_<hex>`. -/
def hashString (s : Str) : Str :=
  str "generated_" ++ toHexNat (s.foldl hashStep 0).natAbs

/-- `Array.prototype.join(sep)` over strings. -/
def joinSep (sep : Str) : List Str → Str
  | [] => []
  | [x] => x
  | x :: y :: rest => x ++ sep ++ joinSep sep (y :: rest)

/-- `MetaAdsService.generateAdId`: hash of
`pageID | adText.substring(0,50) | (imageUrl || videoUrl) | startDate`. -/
def generateAdId (rawAd : ApifyRawAdItem) : Str :=
  let components : List Str :=
    [ rawAd.pageID.getD []
    , (match rawAd.adText with | some t => t.take 50 | none => [])
    , jsOrD (jsOrS rawAd.imageUrl rawAd.videoUrl) []
    , rawAd.startDate.getD [] ]
  hashString (joinSep [124] components)

/-- `MetaAdsService.parsePlatforms`. -/
def parsePlatforms (rawAd : ApifyRawAdItem) : List AdPlatform :=
  let platformStrings :=
    (rawAd.platforms.orElse fun _ =>
      rawAd.publisherPlatform.orElse fun _ => rawAd.publisher_platform).getD []
  if platformStrings.isEmpty then [.unknown]
  else platformStrings.map fun p =>
    let platform := jsToLower p
    if includesL platform (str "facebook") then .facebook
    else if includesL platform (str "instagram") then .instagram
    else if includesL platform (str "messenger") then .messenger
    else if includesL platform (str "audience_network") ||
            includesL platform (str "audience network") then .audience_network
    else .unknown

/-- `MetaAdsService.parseStatus`. -/
def parseStatus (rawAd : ApifyRawAdItem) : AdStatus :=
  if rawAd.isActive == some true || rawAd.isRunning == some true then .active
  else if rawAd.isActive == some false || rawAd.isRunning == some false then .inactive
  else if rawAd.is_active == some true then .active
  else if rawAd.is_active == some false then .inactive
  else
    match rawAd.status with
    | none => .unknown
    | some st =>
      let s := jsToLower st
      if s == str "active" || s == str "running" then .active
      else if s == str "inactive" || s == str "stopped" || s == str "paused" then .inactive
      else if s == str "removed" || s == str "deleted" then .removed
      else .unknown

/-- Push a media asset unless an entry with the same url is already present
(`!media.some((m) => m.url === url)`). -/
def pushIfNewUrl (media : List AdMedia) (item : AdMedia) : List AdMedia :=
  if media.any fun m => m.url == item.url then media else media ++ [item]

/-- `MetaAdsService.parseMedia`: collects media assets from the direct
fields, the raw arrays, the `snapshot` block and the generic `media` array,
in source order.  Every push except the direct `videoUrl` one is guarded by
a same-url check. -/
def parseMedia (rawAd : ApifyRawAdItem) : List AdMedia :=
  let m0 : List AdMedia := []
  -- direct imageUrl (pushed without a same-url guard; the list is empty here)
  let m1 :=
    match rawAd.imageUrl with
    | some u => if u.isEmpty then m0 else m0 ++ [{ type := .image, url := u }]
    | none => m0
  -- raw images array
  let m2 :=
    match rawAd.images with
    | some urls =>
      urls.foldl (fun acc url =>
        if !url.isEmpty then pushIfNewUrl acc { type := .image, url := url } else acc) m1
    | none => m1
  -- snapshot.images
  let m3 :=
    match rawAd.snapshot.bind (·.images) with
    | some imgs =>
      imgs.foldl (fun acc img =>
        match jsOrS img.resized_image_url img.original_image_url with
        | some url =>
          if !url.isEmpty then pushIfNewUrl acc { type := .image, url := url } else acc
        | none => acc) m2
    | none => m2
  -- snapshot.cards (carousel ads): card image, then card video
  let m4 :=
    match rawAd.snapshot.bind (·.cards) with
    | some cards =>
      cards.foldl (fun acc card =>
        let acc1 :=
          match jsOrS card.resized_image_url card.video_preview_image_url with
          | some imgUrl =>
            if !imgUrl.isEmpty then pushIfNewUrl acc { type := .image, url := imgUrl } else acc
          | none => acc
        match card.video_hd_url with
        | some v =>
          if !v.isEmpty then
            pushIfNewUrl acc1
              { type := .video, url := v, thumbnailUrl := card.video_preview_image_url }
          else acc1
        | none => acc1) m3
    | none => m3
  -- direct videoUrl: pushed unconditionally, with no same-url guard
  let m5 :=
    match rawAd.videoUrl with
    | some v => if v.isEmpty then m4 else m4 ++ [{ type := .video, url := v }]
    | none => m4
  -- raw videos array
  let m6 :=
    match rawAd.videos with
    | some vids =>
      vids.foldl (fun acc video =>
        match video.url with
        | some u =>
          if !u.isEmpty then
            pushIfNewUrl acc
              { type := .video, url := u, thumbnailUrl := video.thumbnailUrl,
                duration := video.duration }
          else acc
        | none => acc) m5
    | none => m5
  -- snapshot.videos
  let m7 :=
    match rawAd.snapshot.bind (·.videos) with
    | some vids =>
      vids.foldl (fun acc video =>
        match jsOrS video.video_hd_url video.video_sd_url with
        | some url =>
          if !url.isEmpty then
            pushIfNewUrl acc
              { type := .video, url := url,
                thumbnailUrl := video.video_preview_image_url }
          else acc
        | none => acc) m6
    | none => m6
  -- generic media array
  match rawAd.media with
  | some items =>
    items.foldl (fun acc item =>
      match item.url with
      | some u =>
        if !u.isEmpty then
          pushIfNewUrl acc
            { type := if item.type == some (str "video") then .video else .image,
              url := u, thumbnailUrl := item.thumbnailUrl }
        else acc
      | none => acc) m7
  | none => m7

/-- `MetaAdsService.determineFormat`: derived from the extracted media list,
with raw-field hints only when the list has no image and no video. -/
def determineFormat (rawAd : ApifyRawAdItem) (media : List AdMedia) : AdFormat :=
  let videoCount := (media.filter fun m => m.type == .video).length
  let imageCount := (media.filter fun m => m.type == .image).length
  if 0 < videoCount then .video
  else if 1 < imageCount then .carousel
  else if imageCount = 1 then .image
  else if truthy rawAd.videoUrl || !((rawAd.videos.getD []).isEmpty) then .video
  else if 1 < (rawAd.images.getD []).length then .carousel
  else if truthy rawAd.imageUrl || (rawAd.images.getD []).length = 1 then .image
  else .unknown

/-- `MetaAdsService.extractImageUrl`. -/
def extractImageUrl (raw : ApifyRawAdItem) : Option Str :=
  if truthy raw.imageUrl then raw.imageUrl
  else if truthy (raw.images.bind List.head?) then raw.images.bind List.head?
  else
    match (raw.snapshot.bind (·.images)).bind List.head? with
    | some img => jsOrS img.resized_image_url img.original_image_url
    | none =>
      match (raw.snapshot.bind (·.cards)).bind List.head? with
      | some card => jsOrS card.resized_image_url card.video_preview_image_url
      | none =>
        if truthy (raw.snapshot.bind (·.page_profile_picture_url)) then
          raw.snapshot.bind (·.page_profile_picture_url)
        else none

/-- `MetaAdsService.extractVideoUrl`. -/
def extractVideoUrl (raw : ApifyRawAdItem) : Option Str :=
  if truthy raw.videoUrl then raw.videoUrl
  else if truthy ((raw.videos.bind List.head?).bind (·.url)) then
    (raw.videos.bind List.head?).bind (·.url)
  else
    match (raw.snapshot.bind (·.videos)).bind List.head? with
    | some video => jsOrS video.video_hd_url video.video_sd_url
    | none =>
      match (raw.snapshot.bind (·.cards)).bind List.head? with
      | some card => if truthy card.video_hd_url then card.video_hd_url else none
      | none => none

/-- Keep the first occurrence of each string
(`filter((v, i, a) => a.indexOf(v) === i)`). -/
def jsUniq (l : List Str) : List Str := go [] l
where
  /-- Accumulating pass of `jsUniq`. -/
  go (seen : List Str) : List Str → List Str
    | [] => []
    | x :: xs => if seen.contains x then go seen xs else x :: go (x :: seen) xs

/-- `MetaAdsService.parseDemographics`. -/
def parseDemographics (rawAd : ApifyRawAdItem) : Option AdDemographics :=
  let dd := rawAd.demographicDistribution.getD []
  let ageRanges :=
    jsUniq ((dd.filter fun d => truthy d.ageRange).map fun d => d.ageRange.getD [])
  let genders := (dd.filter fun d => truthy d.gender).map fun d => jsToLower (d.gender.getD [])
  let demo1 : AdDemographics :=
    if !ageRanges.isEmpty then { ageRange := some (joinSep (str ", ") ageRanges) }
    else {}
  let demo2 : AdDemographics :=
    if !genders.isEmpty then
      if genders.contains (str "male") && genders.contains (str "female") then
        { demo1 with gender := some .all }
      else if genders.contains (str "male") then { demo1 with gender := some .male }
      else if genders.contains (str "female") then { demo1 with gender := some .female }
      else demo1
    else demo1
  let hasDemo1 := !dd.isEmpty && (!ageRanges.isEmpty || !genders.isEmpty)
  let rd := rawAd.regionDistribution.getD []
  let hasRD := !rd.isEmpty
  let demo3 : AdDemographics :=
    if hasRD then
      { demo2 with regions := some ((rd.filter fun r => truthy r.region).map
          fun r => r.region.getD []) }
    else demo2
  if hasDemo1 || hasRD then some demo3 else none

/-- `MetaAdsService.normalizeAd`.  `dp` is the engine's `Date`-string parser
(a fixed pure function supplied by the environment); `now` is the clock value
read for `fetchedAt`.  The `includeRawData` debug echo is not modelled. -/
def normalizeAd (rawAd : ApifyRawAdItem) (brandName : Str)
    (dp : Str → Option Int) (now : Nat) : Ad :=
  let id := jsOrD (jsOrS (jsOrS (jsOrS rawAd.id rawAd.adArchiveID) rawAd.ad_archive_id)
    rawAd.adid) (generateAdId rawAd)
  let startDate := (jsOrS (jsOrS (jsOrS (jsOrS rawAd.startDate rawAd.start_date)
    rawAd.start_date_formatted) rawAd.adCreationTime) rawAd.adDeliveryStartTime).bind dp
  let endDate := (jsOrS (jsOrS (jsOrS rawAd.endDate rawAd.end_date)
    rawAd.end_date_formatted) rawAd.adDeliveryStopTime).bind dp
  let media := parseMedia rawAd
  let primaryText := jsOrS (jsOrS (jsOrS rawAd.primaryText rawAd.bodyText) rawAd.adText)
    (rawAd.snapshot.bind (·.body_text))
  let ctaText := jsOrS rawAd.ctaText (rawAd.snapshot.bind (·.cta_text))
  let ctaType := jsOrS rawAd.ctaType (rawAd.snapshot.bind (·.cta_type))
  { id := id
    adLibraryId := jsOrS rawAd.adArchiveID rawAd.ad_archive_id
    brandName := jsOrD (jsOrS (jsOrS rawAd.pageName rawAd.page_name)
      (rawAd.snapshot.bind (·.page_name))) brandName
    pageId := jsOrS rawAd.pageID rawAd.page_id
    pageUrl := rawAd.pageUrl
    headline := jsOrS rawAd.headline rawAd.linkTitle
    primaryText := primaryText
    description := rawAd.linkDescription
    caption := jsOrS rawAd.linkCaption (rawAd.snapshot.bind (·.caption))
    callToAction :=
      if truthy ctaText then
        some { text := ctaText, type := ctaType, linkUrl := rawAd.linkUrl }
      else none
    imageUrl := extractImageUrl rawAd
    videoUrl := extractVideoUrl rawAd
    media := media
    platforms := parsePlatforms rawAd
    format := determineFormat rawAd media
    startDate := startDate
    endDate := endDate
    status := parseStatus rawAd
    demographics := parseDemographics rawAd
    categories :=
      match rawAd.categories with
      | some cs => some cs
      | none => if truthy rawAd.category then some [rawAd.category.getD []] else none
    adLibraryUrl := jsOrS rawAd.adLibraryUrl rawAd.ad_library_url
    snapshotUrl := rawAd.adSnapshotUrl
    fetchedAt := now }

/-! ### Identity resolver (`MetaAdsService.findBestMatchingPage`) -/

/-- One entry of the resolver's `pageMap`: page id, represented display name
(the brand name of the first ad seen with that id), and ad count. -/
abbrev PageEntry := Str × Str × Nat

/-- Record one ad in the `pageMap`, incrementing the count of an existing
page id or appending a fresh entry (JS `Map` preserves insertion order). -/
def bumpPage : List PageEntry → Str → Str → List PageEntry
  | [], pid, name => [(pid, name, 1)]
  | (p, n, c) :: rest, pid, name =>
    if p == pid then (p, n, c + 1) :: rest
    else (p, n, c) :: bumpPage rest pid name

/-- Group the normalized ads by `pageId` (ads with an absent or empty
`pageId` are skipped; the display name is `ad.brandName || ''`). -/
def buildPageMap (ads : List Ad) : List PageEntry :=
  ads.foldl (fun m ad =>
    match ad.pageId with
    | some pid => if pid.isEmpty then m else bumpPage m pid ad.brandName
    | none => m) []

/-- The name-similarity score of a candidate against the lowercased search
term: exact 1000, either-way prefix 500, either-way containment 100, else 0. -/
def nameScore (pageName searchLower : Str) : Nat :=
  let nameLower := jsToLower pageName
  if nameLower == searchLower then 1000
  else if startsWithL nameLower searchLower || startsWithL searchLower nameLower then 500
  else if includesL nameLower searchLower || includesL searchLower nameLower then 100
  else 0

/-- The resolver's running best candidate. -/
structure BestMatch where
  pageId : Str
  pageName : Str
  score : Nat
  count : Nat
deriving DecidableEq, Repr

/-- The selection loop of `findBestMatchingPage`: skip candidates with zero
name score, otherwise compete on `nameScore + min(count, 50)`, keeping the
first-seen candidate on ties (strict `>` update). -/
def selectLoop (searchLower : Str) : List PageEntry → Option BestMatch → Option BestMatch
  | [], best => best
  | (pid, name, count) :: rest, best =>
    let ns := nameScore name searchLower
    if ns = 0 then selectLoop searchLower rest best
    else
      let total := ns + min count 50
      let best' :=
        match best with
        | none => some ⟨pid, name, total, count⟩
        | some b => if b.score < total then some ⟨pid, name, total, count⟩ else some b
      selectLoop searchLower rest best'

/-- `MetaAdsService.findBestMatchingPage`: the id and display name of the
best-scoring name-relevant page, or `none`. -/
def findBestMatchingPage (ads : List Ad) (searchTerm : Str) : Option (Str × Str) :=
  let pageMap := buildPageMap ads
  if pageMap.isEmpty then none
  else
    match selectLoop (jsToLower searchTerm) pageMap none with
    | some b => some (b.pageId, b.pageName)
    | none => none

/-! ### Fetch results and the error handler -/

/-- `FetchAdsResult`.  The `metadata` block (query echo, clock-derived
`durationMs`, run and dataset ids) carries no claim-relevant information and
is not modelled. -/
structure FetchAdsResult where
  success : Bool
  ads : List Ad
  error : Option Str := none
  errorCode : Option ApifyErrorCode := none
  totalFound : Option Nat := none
  brandSource : Option BrandSource := none
  verifiedBrandName : Option Str := none
deriving DecidableEq, Repr

/-- `FetchAdsOptions` (fields the modelled code reads). -/
structure FetchAdsOptions where
  maxAds : Option Nat := none
  countryCode : Option Str := none
  activeOnly : Option Bool := none
  timeoutMs : Option Nat := none
deriving DecidableEq, Repr

/-- `MetaAdsService.handleError`: classify a caught value into the error
taxonomy and return a typed failure result. -/
def handleError (e : JsError) : FetchAdsResult :=
  match e with
  | .apify msg code => { success := false, ads := [], error := some msg, errorCode := some code }
  | .generic msg =>
    let code :=
      if (msgIncludes msg "out of" && msgIncludes msg "token") ||
         msgIncludes msg "credit" || msgIncludes msg "usage limit" ||
         msgIncludes msg "quota" ||
         (msgIncludes msg "insufficient" &&
           (msgIncludes msg "credit" || msgIncludes msg "token")) ||
         (msgIncludes msg "exceeded" &&
           (msgIncludes msg "limit" || msgIncludes msg "quota")) then
        ApifyErrorCode.USAGE_QUOTA_EXCEEDED
      else if msgIncludes msg "timeout" then .TIMEOUT
      else if msgIncludes msg "rate limit" || msgIncludes msg "429" then .RATE_LIMIT
      else if msgIncludes msg "not found" || msgIncludes msg "404" then .ACTOR_NOT_FOUND
      else if msgIncludes msg "unauthorized" || msgIncludes msg "401" then .INVALID_API_KEY
      else .UNKNOWN
    { success := false, ads := [], error := some msg, errorCode := some code }
  | .nonError =>
    { success := false, ads := [], error := some (str "An unknown error occurred"),
      errorCode := some .UNKNOWN }

/-! ### Meta fetch orchestrator -/

/-- Recorded outcomes of the Meta service's effects for one request:
the outcome of each successive actor call, the dataset fetch outcome per
dataset id, the engine's `Date` parser and the clock value. -/
structure MetaEnv where
  attempts : Nat → AttemptOutcome
  datasetResult : Str → Except JsError (List ApifyRawAdItem)
  dp : Str → Option Int
  now : Nat

/-- `MetaAdsService.fetchDatasetItems`: a failing `listItems` is re-thrown
as an `ApifyError` with code `NETWORK_ERROR`. -/
def fetchDatasetItems (env : MetaEnv) (datasetId : Str) : Except JsError (List ApifyRawAdItem) :=
  match env.datasetResult datasetId with
  | .ok items => .ok items
  | .error _ => .error (.apify (str "Failed to fetch results from dataset") .NETWORK_ERROR)

/-- `maxRetries` of the default retry configuration. -/
def defaultMaxRetries : Nat := 3

/-- `defaultMaxAds` of the Meta service configuration. -/
def metaDefaultMaxAds : Nat := 50

/-- `MetaAdsService.fetchAdsByPageId` (result, plus whether an actor call was
made).  The cached path of `fetchAdsByBrand` delegates here. -/
def fetchAdsByPageId (env : MetaEnv) (pageId : Str) (_options : FetchAdsOptions) :
    FetchAdsResult × Bool :=
  if pageId.isEmpty || (jsTrim pageId).isEmpty then
    ({ success := false, ads := [], error := some (str "Page ID is required"),
       errorCode := some .NO_RESULTS }, false)
  else
    let trimmedPageId := jsTrim pageId
    match runActorWithRetry defaultMaxRetries env.attempts 1 with
    | .error e => (handleError e, true)
    | .ok run =>
      match fetchDatasetItems env run.defaultDatasetId with
      | .error e => (handleError e, true)
      | .ok rawAds =>
        if rawAds.isEmpty then
          ({ success := true, ads := [], totalFound := some 0 }, true)
        else
          let normalizedAds := rawAds.map fun rawAd =>
            normalizeAd rawAd (jsOrD rawAd.pageName trimmedPageId) env.dp env.now
          ({ success := true, ads := normalizedAds,
             totalFound := some normalizedAds.length }, true)

/-- The output of one `fetchAdsByBrand` orchestration: the result, the brand
cache after the call, and which effects were performed. -/
structure MetaFetchOut where
  result : FetchAdsResult
  cache : Brands
  didCacheLookup : Bool
  didActorCall : Bool
  didCacheWrite : Bool
deriving Repr

/-- `MetaAdsService.fetchAdsByBrand`: validate, consult the brand cache,
and on a miss run the cold search (actor run via the retry controller,
dataset fetch, normalization, identity resolution, cache save, filter to the
resolved page, then truncation to `maxAds`). -/
def metaFetchAdsByBrand (env : MetaEnv) (cache : Brands) (brandName : Str)
    (options : FetchAdsOptions) : MetaFetchOut :=
  if brandName.isEmpty || (jsTrim brandName).isEmpty then
    { result := { success := false, ads := [], error := some (str "Brand name is required"),
                  errorCode := some .NO_RESULTS },
      cache := cache, didCacheLookup := false, didActorCall := false, didCacheWrite := false }
  else
    let trimmedBrandName := jsTrim brandName
    match lookupBrandInCache cache trimmedBrandName with
    | some cachedBrand =>
      let (r, called) := fetchAdsByPageId env cachedBrand.pageId options
      { result := { r with brandSource := some .cached,
                           verifiedBrandName := some cachedBrand.name },
        cache := cache, didCacheLookup := true, didActorCall := called,
        didCacheWrite := false }
    | none =>
      let maxAds := jsOrN options.maxAds metaDefaultMaxAds
      match runActorWithRetry defaultMaxRetries env.attempts 1 with
      | .error e =>
        { result := handleError e, cache := cache, didCacheLookup := true,
          didActorCall := true, didCacheWrite := false }
      | .ok run =>
        match fetchDatasetItems env run.defaultDatasetId with
        | .error e =>
          { result := handleError e, cache := cache, didCacheLookup := true,
            didActorCall := true, didCacheWrite := false }
        | .ok rawAds =>
          if rawAds.isEmpty then
            { result := { success := true, ads := [], totalFound := some 0,
                          brandSource := some .not_verified },
              cache := cache, didCacheLookup := true, didActorCall := true,
              didCacheWrite := false }
          else
            let normalizedAds := rawAds.map fun rawAd =>
              normalizeAd rawAd trimmedBrandName env.dp env.now
            match findBestMatchingPage normalizedAds trimmedBrandName with
            | none =>
              { result := { success := true, ads := [], totalFound := some 0,
                            brandSource := some .not_verified },
                cache := cache, didCacheLookup := true, didActorCall := true,
                didCacheWrite := false }
            | some best =>
              let (cache', wrote) :=
                if best.1.isEmpty then (cache, false)
                else (saveBrandToCache cache trimmedBrandName best.1 best.2, true)
              let filteredAds := normalizedAds.filter fun ad => ad.pageId == some best.1
              let finalAds := filteredAds.take maxAds
              { result := { success := true, ads := finalAds,
                            totalFound := some filteredAds.length,
                            brandSource := some .discovered,
                            verifiedBrandName := some best.2 },
                cache := cache', didCacheLookup := true, didActorCall := true,
                didCacheWrite := wrote }

/-! ### Google service: raw records and normalizer -/

/-- `variations[i].textAdMetadata`. -/
structure TextAdMetadata where
  iframeUrl : Option Str := none
deriving DecidableEq, Repr

/-- `variations[i].imageAdMetadata`. -/
structure ImageAdMetadata where
  imageUrl : Option Str := none
deriving DecidableEq, Repr

/-- `variations[i].videoAdMetadata`. -/
structure VideoAdMetadata where
  videoUrl : Option Str := none
  thumbnailUrl : Option Str := none
deriving DecidableEq, Repr

/-- One entry of a Google raw item's `variations` array. -/
structure GoogleVariation where
  textAdMetadata : Option TextAdMetadata := none
  imageAdMetadata : Option ImageAdMetadata := none
  videoAdMetadata : Option VideoAdMetadata := none
deriving DecidableEq, Repr

/-- The fields of `GoogleAdRawItem` that `GoogleAdsService` reads. -/
structure GoogleAdRawItem where
  advertiserId : Option Str := none
  advertiserName : Option Str := none
  creativeId : Option Str := none
  adType : Option Str := none
  variations : Option (List GoogleVariation) := none
deriving DecidableEq, Repr

/-- Attempt the regex `src=["']([^"']+)["']` at the head of the string:
literal `src=`, an opening quote, a nonempty greedy run of non-quote code
units, then a closing quote. -/
def srcMatchAt (s : Str) : Option Str :=
  match s with
  | 115 :: 114 :: 99 :: 61 :: q :: rest =>
    if q == 34 || q == 39 then
      let cap := rest.takeWhile fun c => c != 34 && c != 39
      if cap.isEmpty then none
      else
        match rest.drop cap.length with
        | c :: _ => if c == 34 || c == 39 then some cap else none
        | [] => none
    else none
  | _ => none

/-- Leftmost match of the `src=` regex: the capture group of
`html.match(/src=["']([^"']+)["']/)?.[1]`. -/
def srcSearch : Str → Option Str
  | [] => none
  | c :: rest =>
    match srcMatchAt (c :: rest) with
    | some cap => some cap
    | none => srcSearch rest

/-- `GoogleAdsService.extractImageUrl`: pull the `src` attribute out of an
HTML `img` fragment. -/
def gExtractImageUrl (html : Option Str) : Option Str :=
  if truthy html then srcSearch (html.getD []) else none

/-- The media-collection state of the Google normalizer's variation loop. -/
structure GMediaState where
  imageUrl : Option Str := none
  videoUrl : Option Str := none
  media : List AdMedia := []
deriving DecidableEq, Repr

/-- One iteration of the Google normalizer's `variations` loop: first image
wins (from the text-ad iframe or the image metadata), first video wins. -/
def gVariationStep (st : GMediaState) (variation : GoogleVariation) : GMediaState :=
  let st1 :=
    if truthy (variation.textAdMetadata.bind (·.iframeUrl)) then
      match gExtractImageUrl (variation.textAdMetadata.bind (·.iframeUrl)) with
      | some extractedUrl =>
        if st.imageUrl.isNone then
          { st with imageUrl := some extractedUrl,
                    media := st.media ++ [{ type := .image, url := extractedUrl }] }
        else st
      | none => st
    else st
  let st2 :=
    match variation.imageAdMetadata.bind (·.imageUrl) with
    | some u =>
      if !u.isEmpty && st1.imageUrl.isNone then
        { st1 with imageUrl := some u,
                   media := st1.media ++ [{ type := .image, url := u }] }
      else st1
    | none => st1
  match variation.videoAdMetadata.bind (·.videoUrl) with
  | some v =>
    if !v.isEmpty && st2.videoUrl.isNone then
      { st2 with videoUrl := some v,
                 media := st2.media ++
                   [{ type := .video, url := v,
                      thumbnailUrl := variation.videoAdMetadata.bind (·.thumbnailUrl) }] }
    else st2
  | none => st2

/-- `GoogleAdsService.normalizeAd`.  `salt` is the string
`Date.now() + "-" + Math.random()` interpolated into the fallback id when
`creativeId` is absent; `now` is the clock value read for `fetchedAt`. -/
def googleNormalizeAd (raw : GoogleAdRawItem) (searchTerm : Str)
    (salt : Str) (now : Nat) : Ad :=
  let adId := jsOrD raw.creativeId (str "google-" ++ salt)
  let advertiserId := jsOrD raw.advertiserId []
  let advertiserName := jsOrD raw.advertiserName searchTerm
  let adType := jsToLower (jsOrD raw.adType [])
  let format : AdFormat :=
    if includesL adType (str "video") then .video
    else if includesL adType (str "image") then .image
    else if includesL adType (str "text") then .text
    else .unknown
  let st := (raw.variations.getD []).foldl gVariationStep {}
  let adLibraryUrl :=
    if !advertiserId.isEmpty && !adId.isEmpty then
      str "https://adstransparency.google.com/advertiser/" ++ advertiserId ++
        str "/creative/" ++ adId
    else if !advertiserId.isEmpty then
      str "https://adstransparency.google.com/advertiser/" ++ advertiserId
    else str "https://adstransparency.google.com/"
  { id := adId
    pageId := some advertiserId
    brandName := advertiserName
    status := .active
    format := format
    platforms := [.google_display]
    media := st.media
    imageUrl := st.imageUrl
    videoUrl := st.videoUrl
    adLibraryUrl := some adLibraryUrl
    fetchedAt := now }

/-! ### Google fetch orchestrator -/

/-- Recorded outcomes of the Google service's effects for one request: the
(single, unretried) actor call outcome of the by-brand path, the one of the
by-advertiser-id path, the dataset fetch outcome per dataset id, the salt
drawn for each normalized item's fallback id, and the clock. -/
structure GoogleEnv where
  runResult : Except JsError ActorRun
  runByIdResult : Except JsError ActorRun
  datasetResult : Str → Except JsError (List GoogleAdRawItem)
  salts : Nat → Str
  now : Nat

/-- `defaultMaxAds` of the Google service configuration. -/
def googleDefaultMaxAds : Nat := 10

/-- Map with the element index (used to thread per-item salts). -/
def mapWithIndex {α β : Type} (f : Nat → α → β) (l : List α) : List β :=
  go 0 l
where
  /-- Indexed pass of `mapWithIndex`. -/
  go (i : Nat) : List α → List β
    | [] => []
    | x :: xs => f i x :: go (i + 1) xs

/-- The brand-to-domain table of `GoogleAdsService.buildDomain`. -/
def domainMap : List (Str × Str) :=
  [ (str "coca-cola", str "coca-cola.com")
  , (str "coca cola", str "coca-cola.com")
  , (str "mcdonald's", str "mcdonalds.com")
  , (str "mcdonalds", str "mcdonalds.com")
  , (str "at&t", str "att.com")
  , (str "att", str "att.com") ]

/-- `GoogleAdsService.buildDomain`: mapped domain, or lowercase
alphanumeric-only brand name with `.com` appended. -/
def buildDomain (brandName : Str) : Str :=
  let key := jsTrim (jsToLower brandName)
  match getEntry domainMap key with
  | some d => d
  | none =>
    let cleanName := jsTrim ((jsToLower brandName).filter fun c =>
      (97 ≤ c && c ≤ 122) || (48 ≤ c && c ≤ 57))
    cleanName ++ str ".com"

/-- The catch-all failure of the Google service's `try` blocks: message from
the thrown value, code `UNKNOWN`. -/
def googleCatch (e : JsError) : FetchAdsResult :=
  let msg :=
    match e with
    | .apify m _ => m
    | .generic m => m
    | .nonError => str "Unknown error"
  { success := false, ads := [], error := some msg, errorCode := some .UNKNOWN }

/-- `GoogleAdsService.fetchAdsByAdvertiserId` (result, plus whether an actor
call was made; it always is, as this path has no input validation). -/
def fetchAdsByAdvertiserId (env : GoogleEnv) (_advertiserId : Str)
    (options : FetchAdsOptions) : FetchAdsResult × Bool :=
  let maxAds := jsOrN options.maxAds googleDefaultMaxAds
  match env.runByIdResult with
  | .error e => (googleCatch e, true)
  | .ok run =>
    if run.status != .SUCCEEDED then
      ({ success := false, ads := [], error := some (str "Failed to fetch ads"),
         errorCode := some .RUN_FAILED }, true)
    else
      match env.datasetResult run.defaultDatasetId with
      | .error e => (googleCatch e, true)
      | .ok items =>
        let normalizedAds := mapWithIndex (fun i item =>
          googleNormalizeAd item [] (env.salts i) env.now) items
        let finalAds := normalizedAds.take maxAds
        ({ success := true, ads := finalAds,
           totalFound := some normalizedAds.length }, true)

/-- The output of one Google `fetchAdsByBrand` orchestration. -/
structure GoogleFetchOut where
  result : FetchAdsResult
  cache : Advertisers
  didCacheLookup : Bool
  didActorCall : Bool
  didCacheWrite : Bool
deriving Repr

/-- `GoogleAdsService.fetchAdsByBrand`: validate, consult the advertiser
cache, and on a miss search by domain; all normalized items are truncated to
`maxAds` and the first item's advertiser is cached and reported. -/
def googleFetchAdsByBrand (env : GoogleEnv) (cache : Advertisers) (brandName : Str)
    (options : FetchAdsOptions) : GoogleFetchOut :=
  if brandName.isEmpty || (jsTrim brandName).isEmpty then
    { result := { success := false, ads := [], error := some (str "Brand name is required"),
                  errorCode := some .NO_RESULTS, brandSource := some .not_verified },
      cache := cache, didCacheLookup := false, didActorCall := false, didCacheWrite := false }
  else
    let trimmedBrandName := jsTrim brandName
    match lookupInCache cache trimmedBrandName with
    | some cached =>
      let (r, called) := fetchAdsByAdvertiserId env cached.advertiserId options
      { result := { r with brandSource := some .cached,
                           verifiedBrandName := some cached.name },
        cache := cache, didCacheLookup := true, didActorCall := called,
        didCacheWrite := false }
    | none =>
      let domain := buildDomain trimmedBrandName
      let maxAds := jsOrN options.maxAds googleDefaultMaxAds
      match env.runResult with
      | .error e =>
        { result := { googleCatch e with brandSource := some .not_verified },
          cache := cache, didCacheLookup := true, didActorCall := true,
          didCacheWrite := false }
      | .ok run =>
        if run.status != .SUCCEEDED then
          { result := { success := false, ads := [],
                        error := some (str "Failed to fetch ads"),
                        errorCode := some .RUN_FAILED,
                        brandSource := some .not_verified },
            cache := cache, didCacheLookup := true, didActorCall := true,
            didCacheWrite := false }
        else
          match env.datasetResult run.defaultDatasetId with
          | .error e =>
            { result := { googleCatch e with brandSource := some .not_verified },
              cache := cache, didCacheLookup := true, didActorCall := true,
              didCacheWrite := false }
          | .ok items =>
            match items with
            | [] =>
              { result := { success := true, ads := [], totalFound := some 0,
                            brandSource := some .not_verified },
                cache := cache, didCacheLookup := true, didActorCall := true,
                didCacheWrite := false }
            | firstAd :: _ =>
              let normalizedAds := mapWithIndex (fun i item =>
                googleNormalizeAd item trimmedBrandName (env.salts i) env.now) items
              let advertiserId := firstAd.advertiserId
              let advertiserName := jsOrD firstAd.advertiserName trimmedBrandName
              let (cache', wrote) :=
                if truthy advertiserId then
                  (saveToCache cache trimmedBrandName (advertiserId.getD [])
                    advertiserName domain, true)
                else (cache, false)
              let finalAds := normalizedAds.take maxAds
              { result := { success := true, ads := finalAds,
                            totalFound := some normalizedAds.length,
                            brandSource := some (if truthy advertiserId then .discovered
                                                 else .not_verified),
                            verifiedBrandName := some advertiserName },
                cache := cache', didCacheLookup := true, didActorCall := true,
                didCacheWrite := wrote }

/-! ### String normalization lemmas -/

theorem lowerCode_idem (n : Nat) : lowerCode (lowerCode n) = lowerCode n := by
  simp only [lowerCode]
  by_cases h : 65 ≤ n ∧ n ≤ 90
  · rw [if_pos h, if_neg (by omega)]
  · rw [if_neg h, if_neg h]

theorem isWs_lowerCode (n : Nat) : isWs (lowerCode n) = isWs n := by
  simp only [lowerCode, isWs]
  by_cases h : 65 ≤ n ∧ n ≤ 90
  · rw [if_pos h]
    have l : ∀ m, 97 ≤ m → (m == 32 || m == 9 || m == 10 || m == 13) = false := by
      intro m hm
      simp only [Bool.or_eq_false_iff, beq_eq_false_iff_ne]
      omega
    have r : (n == 32 || n == 9 || n == 10 || n == 13) = false := by
      simp only [Bool.or_eq_false_iff, beq_eq_false_iff_ne]
      omega
    rw [l (n + 32) (by omega), r]
  · rw [if_neg h]

theorem isWs_comp_lowerCode : (fun n => isWs (lowerCode n)) = isWs :=
  funext isWs_lowerCode

theorem jsToLower_idem (s : Str) : jsToLower (jsToLower s) = jsToLower s := by
  simp only [jsToLower, List.map_map]
  exact List.map_congr_left fun a _ => lowerCode_idem a

theorem jsTrim_eq_rdropWhile (s : Str) :
    jsTrim s = List.rdropWhile isWs (s.dropWhile isWs) := rfl

theorem jsTrim_jsToLower (s : Str) : jsTrim (jsToLower s) = jsToLower (jsTrim s) := by
  simp only [jsTrim_eq_rdropWhile, jsToLower, List.rdropWhile, List.dropWhile_map,
    Function.comp_def, isWs_comp_lowerCode, ← List.map_reverse]

theorem jsTrim_idem (s : Str) : jsTrim (jsTrim s) = jsTrim s := by
  simp only [jsTrim_eq_rdropWhile]
  have hA : (s.dropWhile isWs).dropWhile isWs = s.dropWhile isWs :=
    List.dropWhile_idempotent isWs s
  have hB : (List.rdropWhile isWs (s.dropWhile isWs)).dropWhile isWs =
      List.rdropWhile isWs (s.dropWhile isWs) := by
    rw [List.dropWhile_eq_self_iff]
    intro hl
    have hpre := List.rdropWhile_prefix isWs (s.dropWhile isWs)
    have hlen : 0 < (s.dropWhile isWs).length :=
      Nat.lt_of_lt_of_le hl (hpre.length_le)
    have hget : (List.rdropWhile isWs (s.dropWhile isWs)).get ⟨0, hl⟩ =
        (s.dropWhile isWs).get ⟨0, hlen⟩ := by
      simp only [List.get_eq_getElem]
      exact hpre.getElem hl
    rw [hget]
    exact (List.dropWhile_eq_self_iff.mp hA) hlen
  rw [hB, List.rdropWhile_idempotent]

theorem normKey_of_lower_trim (t : Str) : normKey (jsToLower (jsTrim t)) = normKey t := by
  simp only [normKey]
  rw [jsToLower_idem, jsTrim_jsToLower, jsTrim_idem, jsTrim_jsToLower]

/-- Claim C9: both services' cache lookups normalize the looked-up term by
lowercasing and trimming before comparing keys, so `lookup t` equals
`lookup (lowercase (trim t))` on every cache; in particular `"Nike"`,
`" nike "` and `"NIKE"` all resolve to the same entry. -/
theorem C9_lookup_normalizes :
    (∀ (cache : Brands) (t : Str),
      lookupBrandInCache cache t = lookupBrandInCache cache (jsToLower (jsTrim t))) ∧
    (∀ (cache : Advertisers) (t : Str),
      lookupInCache cache t = lookupInCache cache (jsToLower (jsTrim t))) ∧
    (∀ cache : Brands,
      lookupBrandInCache cache (str "Nike") = lookupBrandInCache cache (str " nike ") ∧
      lookupBrandInCache cache (str "Nike") = lookupBrandInCache cache (str "NIKE")) := by
  refine ⟨fun cache t => ?_, fun cache t => ?_, fun cache => ⟨?_, ?_⟩⟩
  · unfold lookupBrandInCache
    rw [normKey_of_lower_trim]
  · unfold lookupInCache
    rw [normKey_of_lower_trim]
  · unfold lookupBrandInCache
    norm_num [show normKey (str "Nike") = normKey (str " nike ") from by decide]
  · unfold lookupBrandInCache
    norm_num [show normKey (str "Nike") = normKey (str "NIKE") from by decide]

/-! ### Brand cache save semantics (C2) -/

theorem getEntry_append_last {α : Type} (m : List (Str × α)) (k : Str) (v : α)
    (h : getEntry m k = none) : getEntry (m ++ [(k, v)]) k = some v := by
  induction m with
  | nil => simp [getEntry]
  | cons hd rest ih =>
    obtain ⟨k', v'⟩ := hd
    simp only [getEntry] at h ⊢
    rcases hk : (k' == k) with _ | _
    · simp only [hk] at h ⊢
      simp only [Bool.false_eq_true, if_false] at h ⊢
      exact ih h
    · simp [hk] at h

theorem getEntry_setEntry {α : Type} (m : List (Str × α)) (k : Str) (v : α) :
    getEntry (setEntry m k v) k = some v := by
  induction m with
  | nil => simp [getEntry, setEntry]
  | cons hd rest ih =>
    obtain ⟨k', v'⟩ := hd
    simp only [setEntry]
    rcases hk : (k' == k) with _ | _
    · simp [getEntry, hk, ih]
    · simp [getEntry, hk]

theorem getEntry_after_save (cache : Brands) (t p n : Str) :
    ∃ e, getEntry (saveBrandToCache cache t p n) (normKey t) = some e := by
  rcases h : getEntry cache (normKey t) with _ | e
  · refine ⟨⟨p, n⟩, ?_⟩
    unfold saveBrandToCache
    rw [h]
    exact getEntry_append_last cache (normKey t) ⟨p, n⟩ h
  · refine ⟨e, ?_⟩
    unfold saveBrandToCache
    rw [h]
    exact h

theorem save_noop_of_mem (m : Brands) (t p n : Str) (e : BrandCacheEntry)
    (h : getEntry m (normKey t) = some e) : saveBrandToCache m t p n = m := by
  unfold saveBrandToCache
  rw [h]

/-- Counterexample to claim C2 on the Google service: `saveToCache`
overwrites, so saving `"Nike" ↦ A` and then `"Nike" ↦ B` leaves the entry
pointing at `B`, not at the first writer `A`. -/
theorem C2_google_overwrite_cex :
    lookupInCache
        (saveToCache
          (saveToCache [] (str "Nike") (str "A") (str "Nike") (str "nike.com"))
          (str "Nike") (str "B") (str "Nike Inc.") (str "nike.com"))
        (str "Nike")
      = some ⟨str "B", str "Nike Inc.", str "nike.com"⟩ ∧
    lookupInCache
        (saveToCache
          (saveToCache [] (str "Nike") (str "A") (str "Nike") (str "nike.com"))
          (str "Nike") (str "B") (str "Nike Inc.") (str "nike.com"))
        (str "Nike")
      ≠ some ⟨str "A", str "Nike", str "nike.com"⟩ := by
  constructor
  · decide
  · decide

/-- Claim C2 (amended): the Meta service's `saveBrandToCache` is
first-writer-wins — a later save for the same normalized key is a no-op
that leaves the whole cache unchanged — but the Google service's
`saveToCache` overwrites unconditionally, so its entry always reflects the
latest save. -/
theorem C2_amended_save_semantics :
    (∀ (cache : Brands) (t1 t2 p1 n1 p2 n2 : Str), normKey t2 = normKey t1 →
      saveBrandToCache (saveBrandToCache cache t1 p1 n1) t2 p2 n2 =
        saveBrandToCache cache t1 p1 n1) ∧
    (∀ (cache : Advertisers) (t i d dom : Str),
      lookupInCache (saveToCache cache t i d dom) t = some ⟨i, d, dom⟩) := by
  constructor
  · intro cache t1 t2 p1 n1 p2 n2 hk
    obtain ⟨e, he⟩ := getEntry_after_save cache t1 p1 n1
    refine save_noop_of_mem _ t2 p2 n2 e ?_
    rw [hk]
    exact he
  · intro cache t i d dom
    unfold lookupInCache saveToCache
    exact getEntry_setEntry cache (normKey t) ⟨i, d, dom⟩

/-- Witness for the amended C2: with the concrete saves of the claim's own
example, the Meta cache keeps the first writer and the Google cache keeps
the second. -/
theorem C2_amended_save_semantics_witness :
    saveBrandToCache (saveBrandToCache [] (str "Nike") (str "A") (str "Nike"))
        (str "Nike") (str "B") (str "Nike Inc.")
      = saveBrandToCache [] (str "Nike") (str "A") (str "Nike") ∧
    lookupInCache (saveToCache [] (str "Nike") (str "A") (str "Nike") (str "nike.com"))
        (str "Nike")
      = some ⟨str "A", str "Nike", str "nike.com"⟩ :=
  ⟨C2_amended_save_semantics.1 [] (str "Nike") (str "Nike") (str "A") (str "Nike")
      (str "B") (str "Nike Inc.") rfl,
    C2_amended_save_semantics.2 [] (str "Nike") (str "A") (str "Nike") (str "nike.com")⟩

/-! ### Retry controller semantics (C3) -/

theorem retry_surfaces_runFailed (maxRetries : Nat) (env : Nat → AttemptOutcome)
    (attempt : Nat) (run : ActorRun) (h : env attempt = .ok run)
    (hs : run.status = .FAILED) :
    runActorWithRetry maxRetries env attempt = .error (.apify runFailedMsg .RUN_FAILED) := by
  have hr : isRetryableError (.apify runFailedMsg .RUN_FAILED) = false := by decide
  have hl : isRateLimitError (.apify runFailedMsg .RUN_FAILED) = false := by decide
  unfold runActorWithRetry runActorRetryGo attemptStep
  rw [h]
  simp [hs, hr, hl]

theorem retry_surfaces_nonretryable (maxRetries : Nat) (env : Nat → AttemptOutcome)
    (attempt : Nat) (e : JsError) (h : attemptStep env attempt = .error e)
    (hr : isRetryableError e = false) (hl : isRateLimitError e = false) :
    runActorWithRetry maxRetries env attempt = .error e := by
  unfold runActorWithRetry runActorRetryGo
  rw [h]
  simp [hr, hl]

theorem retry_surfaces_at_max (maxRetries : Nat) (env : Nat → AttemptOutcome)
    (attempt : Nat) (e : JsError) (hm : maxRetries ≤ attempt)
    (h : attemptStep env attempt = .error e) :
    runActorWithRetry maxRetries env attempt = .error e := by
  unfold runActorWithRetry runActorRetryGo
  rw [h]
  simp [hm]

theorem retry_on_retryable (maxRetries : Nat) (env : Nat → AttemptOutcome)
    (attempt : Nat) (e : JsError) (h : attemptStep env attempt = .error e)
    (hre : isRetryableError e = true ∨ isRateLimitError e = true)
    (hlt : attempt < maxRetries) :
    runActorWithRetry maxRetries env attempt = runActorWithRetry maxRetries env (attempt + 1) := by
  have hfuel : maxRetries - attempt = (maxRetries - (attempt + 1)) + 1 := by omega
  have hcond : ¬(maxRetries ≤ attempt ∨
      (isRetryableError e = false ∧ isRateLimitError e = false)) := by
    rcases hre with hre | hre <;> simp [hre] <;> omega
  unfold runActorWithRetry
  rw [hfuel]
  conv_lhs => unfold runActorRetryGo
  rw [h]
  simp [hcond]

/-- The status-`TIMED-OUT` counterexample environment: the first actor call
returns a completed run with terminal status `TIMED-OUT`, the second returns
a succeeded run. -/
def envTimedThenOk : Nat → AttemptOutcome := fun n =>
  if n == 1 then .ok ⟨str "r1", .TIMED_OUT, str "d1"⟩
  else .ok ⟨str "r2", .SUCCEEDED, str "d2"⟩

/-- Counterexample to claim C3: a terminal `TIMED-OUT` status reported by a
completed run is thrown as an `ApifyError` with code `TIMEOUT`, which
`isRetryableError` accepts, so the controller retries it instead of
surfacing it immediately: with retries left, the result is the second
attempt's run, not the timed-out error. -/
theorem C3_timedOut_retried_cex :
    runActorWithRetry 3 envTimedThenOk 1 = .ok ⟨str "r2", .SUCCEEDED, str "d2"⟩ ∧
    runActorWithRetry 3 envTimedThenOk 1 ≠ .error (.apify runTimedOutMsg .TIMEOUT) := by
  constructor
  · decide
  · decide

/-- Claim C3 (amended): the retry controller retries only errors classified
retryable or rate-limited; a completed run with terminal status `FAILED` is
surfaced immediately as a `RUN_FAILED` error and never retried; but a
completed run with terminal status `TIMED-OUT` is converted to a `TIMEOUT`
error, which is classified retryable and IS retried while attempts remain;
once the attempt count reaches `maxRetries`, the last error is surfaced to
the caller unchanged. -/
theorem C3_amended_retry_classification :
    (∀ (maxRetries : Nat) (env : Nat → AttemptOutcome) (attempt : Nat) (run : ActorRun),
      env attempt = .ok run → run.status = .FAILED →
      runActorWithRetry maxRetries env attempt = .error (.apify runFailedMsg .RUN_FAILED)) ∧
    (∀ (maxRetries : Nat) (env : Nat → AttemptOutcome) (attempt : Nat) (e : JsError),
      attemptStep env attempt = .error e →
      isRetryableError e = false → isRateLimitError e = false →
      runActorWithRetry maxRetries env attempt = .error e) ∧
    (∀ (maxRetries : Nat) (env : Nat → AttemptOutcome) (attempt : Nat) (e : JsError),
      maxRetries ≤ attempt → attemptStep env attempt = .error e →
      runActorWithRetry maxRetries env attempt = .error e) ∧
    (∀ (maxRetries : Nat) (env : Nat → AttemptOutcome) (attempt : Nat) (run : ActorRun),
      env attempt = .ok run → run.status = .TIMED_OUT → attempt < maxRetries →
      runActorWithRetry maxRetries env attempt =
        runActorWithRetry maxRetries env (attempt + 1)) :=
  ⟨retry_surfaces_runFailed, retry_surfaces_nonretryable, retry_surfaces_at_max,
    fun maxRetries env attempt run h hs hlt => by
      refine retry_on_retryable maxRetries env attempt (.apify runTimedOutMsg .TIMEOUT) ?_
        (Or.inl rfl) hlt
      unfold attemptStep
      rw [h]
      simp [hs]⟩

/-- Witness for the amended C3: a run that completes with status `FAILED` on
the first attempt is surfaced immediately, and a non-retryable thrown value
is surfaced unchanged. -/
theorem C3_amended_retry_classification_witness :
    runActorWithRetry 3 (fun _ => .ok ⟨str "r1", .FAILED, str "d1"⟩) 1 =
      .error (.apify runFailedMsg .RUN_FAILED) ∧
    runActorWithRetry 3 (fun _ => .error (.generic (str "invalid input"))) 1 =
      .error (.generic (str "invalid input")) :=
  ⟨C3_amended_retry_classification.1 3 (fun _ => .ok ⟨str "r1", .FAILED, str "d1"⟩) 1
      ⟨str "r1", .FAILED, str "d1"⟩ rfl rfl,
    C3_amended_retry_classification.2.1 3 (fun _ => .error (.generic (str "invalid input"))) 1
      (.generic (str "invalid input")) rfl (by decide) (by decide)⟩

/-! ### Empty brand name short-circuit (C10) -/

/-- Claim C10: for an empty or whitespace-only brand name, both services'
`fetchAdsByBrand` return immediately with `success = false`, no ads and
error code `NO_RESULTS`, performing no cache lookup, no cache write and no
actor call. -/
theorem C10_empty_brand_short_circuit :
    (∀ (env : MetaEnv) (cache : Brands) (brandName : Str) (options : FetchAdsOptions),
      jsTrim brandName = [] →
      (metaFetchAdsByBrand env cache brandName options).result.success = false ∧
      (metaFetchAdsByBrand env cache brandName options).result.ads = [] ∧
      (metaFetchAdsByBrand env cache brandName options).result.errorCode =
        some .NO_RESULTS ∧
      (metaFetchAdsByBrand env cache brandName options).didCacheLookup = false ∧
      (metaFetchAdsByBrand env cache brandName options).didActorCall = false ∧
      (metaFetchAdsByBrand env cache brandName options).didCacheWrite = false ∧
      (metaFetchAdsByBrand env cache brandName options).cache = cache) ∧
    (∀ (env : GoogleEnv) (cache : Advertisers) (brandName : Str) (options : FetchAdsOptions),
      jsTrim brandName = [] →
      (googleFetchAdsByBrand env cache brandName options).result.success = false ∧
      (googleFetchAdsByBrand env cache brandName options).result.ads = [] ∧
      (googleFetchAdsByBrand env cache brandName options).result.errorCode =
        some .NO_RESULTS ∧
      (googleFetchAdsByBrand env cache brandName options).didCacheLookup = false ∧
      (googleFetchAdsByBrand env cache brandName options).didActorCall = false ∧
      (googleFetchAdsByBrand env cache brandName options).didCacheWrite = false ∧
      (googleFetchAdsByBrand env cache brandName options).cache = cache) := by
  refine ⟨fun env cache brandName options h => ?_, fun env cache brandName options h => ?_⟩
  · unfold metaFetchAdsByBrand
    rw [if_pos (by simp [h])]
    exact ⟨rfl, rfl, rfl, rfl, rfl, rfl, rfl⟩
  · unfold googleFetchAdsByBrand
    rw [if_pos (by simp [h])]
    exact ⟨rfl, rfl, rfl, rfl, rfl, rfl, rfl⟩

/-- An inert Meta environment for witnesses. -/
def trivMetaEnv : MetaEnv :=
  ⟨fun _ => .error .nonError, fun _ => .ok [], fun _ => none, 0⟩

/-- An inert Google environment for witnesses. -/
def trivGoogleEnv : GoogleEnv :=
  ⟨.error .nonError, .error .nonError, fun _ => .ok [], fun _ => [], 0⟩

/-- Witness for C10: a whitespace-only brand name is rejected with
`NO_RESULTS` and no effects by both services. -/
theorem C10_empty_brand_short_circuit_witness :
    ((metaFetchAdsByBrand trivMetaEnv [] (str "   ") {}).result.errorCode =
        some .NO_RESULTS ∧
      (metaFetchAdsByBrand trivMetaEnv [] (str "   ") {}).didActorCall = false) ∧
    ((googleFetchAdsByBrand trivGoogleEnv [] (str "   ") {}).result.errorCode =
        some .NO_RESULTS ∧
      (googleFetchAdsByBrand trivGoogleEnv [] (str "   ") {}).didActorCall = false) :=
  ⟨⟨(C10_empty_brand_short_circuit.1 trivMetaEnv [] (str "   ") {} (by decide)).2.2.1,
    (C10_empty_brand_short_circuit.1 trivMetaEnv [] (str "   ") {} (by decide)).2.2.2.2.1⟩,
   ⟨(C10_empty_brand_short_circuit.2 trivGoogleEnv [] (str "   ") {} (by decide)).2.2.1,
    (C10_empty_brand_short_circuit.2 trivGoogleEnv [] (str "   ") {} (by decide)).2.2.2.2.1⟩⟩

/-! ### Media URL deduplication (C7) -/

/-- A raw record whose `videoUrl` also appears as a card video in the
`snapshot`: every push site of `parseMedia` checks for an existing entry
with the same url except the direct `videoUrl` push. -/
def dupMediaRaw : ApifyRawAdItem :=
  { videoUrl := some (str "https://v.example/ad.mp4"),
    snapshot := some { cards := some [{ video_hd_url := some (str "https://v.example/ad.mp4") }] } }

/-- Claim C7: media extraction is claimed to deduplicate by URL, but the
direct `videoUrl` push has no same-url guard: on `dupMediaRaw` the returned
media list contains the same video URL twice. -/
theorem C7_parseMedia_duplicate_url :
    parseMedia dupMediaRaw =
      [ { type := .video, url := str "https://v.example/ad.mp4" },
        { type := .video, url := str "https://v.example/ad.mp4" } ] ∧
    ¬ (parseMedia dupMediaRaw).Pairwise (fun a b => a.url ≠ b.url) := by
  constructor
  · decide
  · decide

/-! ### Format derivation (C5) -/

/-- A Google raw item typed `"Image"` whose variations carry a video. -/
def gVideoWithImageType : GoogleAdRawItem :=
  { adType := some (str "Image"),
    variations := some
      [{ videoAdMetadata := some { videoUrl := some (str "https://v.example/clip.mp4") } }] }

/-- Counterexample to claim C5: the Google normalizer derives `format`
solely from the `adType` string, so a record typed `"Image"` keeps format
`image` even though its extracted media list contains a video. -/
theorem C5_google_format_cex :
    (googleNormalizeAd gVideoWithImageType (str "acme") (str "s") 0).format = .image ∧
    ((googleNormalizeAd gVideoWithImageType (str "acme") (str "s") 0).media.any
      fun m => m.type == MediaType.video) = true := by
  constructor
  · decide
  · decide

theorem media_counts (media : List AdMedia) :
    (media.filter fun m => m.type == MediaType.video).length +
      (media.filter fun m => m.type == MediaType.image).length = media.length := by
  induction media with
  | nil => rfl
  | cons m rest ih =>
    rcases hm : m.type with _ | _ <;>
      simp [List.filter_cons, hm] <;> omega

/-- Claim C5 (amended): the Meta `determineFormat` satisfies the media-list
invariant exactly as claimed (any video ⇒ `video`; else more than one image
⇒ `carousel`; else one image ⇒ `image`; raw-field hints only when the media
list is empty, so the result is independent of the raw record whenever media
is nonempty), but the Google normalizer derives `format` from the `adType`
string alone: two records with the same `adType` get the same format
regardless of their media. -/
theorem C5_amended_format_rules :
    (∀ (rawAd : ApifyRawAdItem) (media : List AdMedia),
      0 < (media.filter fun m => m.type == MediaType.video).length →
      determineFormat rawAd media = .video) ∧
    (∀ (rawAd : ApifyRawAdItem) (media : List AdMedia),
      (media.filter fun m => m.type == MediaType.video).length = 0 →
      1 < (media.filter fun m => m.type == MediaType.image).length →
      determineFormat rawAd media = .carousel) ∧
    (∀ (rawAd : ApifyRawAdItem) (media : List AdMedia),
      (media.filter fun m => m.type == MediaType.video).length = 0 →
      (media.filter fun m => m.type == MediaType.image).length = 1 →
      determineFormat rawAd media = .image) ∧
    (∀ (raw1 raw2 : ApifyRawAdItem) (media : List AdMedia), media ≠ [] →
      determineFormat raw1 media = determineFormat raw2 media) ∧
    (∀ (raw1 raw2 : GoogleAdRawItem) (st salt1 salt2 : Str) (now1 now2 : Nat),
      raw1.adType = raw2.adType →
      (googleNormalizeAd raw1 st salt1 now1).format =
        (googleNormalizeAd raw2 st salt2 now2).format) := by
  refine ⟨?_, ?_, ?_, ?_, ?_⟩
  · intro rawAd media h
    unfold determineFormat
    rw [if_pos h]
  · intro rawAd media h0 h2
    unfold determineFormat
    rw [if_neg (by omega), if_pos h2]
  · intro rawAd media h0 h1
    unfold determineFormat
    rw [if_neg (by omega), if_neg (by omega), if_pos h1]
  · intro raw1 raw2 media hne
    have hc := media_counts media
    have hlen : 0 < media.length := List.length_pos.mpr hne
    unfold determineFormat
    by_cases h1 : 0 < (media.filter fun m => m.type == MediaType.video).length
    · rw [if_pos h1, if_pos h1]
    · rw [if_neg h1, if_neg h1]
      by_cases h3 : 1 < (media.filter fun m => m.type == MediaType.image).length
      · rw [if_pos h3, if_pos h3]
      · have h4 : (media.filter fun m => m.type == MediaType.image).length = 1 := by omega
        rw [if_neg h3, if_neg h3, if_pos h4, if_pos h4]
  · intro raw1 raw2 st salt1 salt2 now1 now2 h
    simp only [googleNormalizeAd]
    rw [h]

/-- A Google record typed `"Video"` carrying an image variation (same
`adType` as a bare `"Video"` record, different media). -/
def gVideoTypeWithImage : GoogleAdRawItem :=
  { adType := some (str "Video"),
    variations := some [{ imageAdMetadata := some { imageUrl := some (str "i") } }] }

/-- Witness for the amended C5: each format rule evaluated at a concrete
media list, and two Google records with equal `adType` and different media
mapping to the same format. -/
theorem C5_amended_format_rules_witness :
    determineFormat {} [{ type := .video, url := str "v" }] = .video ∧
    determineFormat {} [{ type := .image, url := str "a" },
      { type := .image, url := str "b" }] = .carousel ∧
    determineFormat {} [{ type := .image, url := str "a" }] = .image ∧
    determineFormat {} [{ type := .image, url := str "a" }] =
      determineFormat { videoUrl := some (str "z") } [{ type := .image, url := str "a" }] ∧
    (googleNormalizeAd { adType := some (str "Video") } (str "t") (str "s1") 0).format =
      (googleNormalizeAd gVideoTypeWithImage (str "t") (str "s2") 1).format :=
  ⟨C5_amended_format_rules.1 {} _ (by decide),
   C5_amended_format_rules.2.1 {} _ (by decide) (by decide),
   C5_amended_format_rules.2.2.1 {} _ (by decide) (by decide),
   C5_amended_format_rules.2.2.2.1 {} { videoUrl := some (str "z") } _ (by decide),
   C5_amended_format_rules.2.2.2.2 { adType := some (str "Video") } gVideoTypeWithImage
      (str "t") (str "s1") (str "s2") 0 1 rfl⟩

/-! ### Normalization determinism (C6) -/

/-- Counterexample to claim C6: for a Google record with no `creativeId`,
the fallback id embeds `Date.now()` and `Math.random()`, so normalizing the
same raw record at two instants yields different identifiers. -/
theorem C6_google_fallback_id_cex :
    (googleNormalizeAd { advertiserId := some (str "AR1") } (str "acme")
        (str "1700000000000-0.5") 0).id ≠
      (googleNormalizeAd { advertiserId := some (str "AR1") } (str "acme")
        (str "1700000000001-0.75") 0).id := by
  decide

theorem jsOrS_falsy (a b : Option Str) (h : truthy a = false) : jsOrS a b = b := by
  unfold jsOrS
  rw [h]
  rfl

theorem jsOrD_falsy (a : Option Str) (b : Str) (h : truthy a = false) : jsOrD a b = b := by
  rcases a with _ | s
  · rfl
  · simp only [truthy, Bool.not_eq_false'] at h
    simp [jsOrD, h]

/-- Claim C6 (amended): normalization is deterministic in its inputs — the
Meta ad identifier does not depend on the clock, the Meta generated id is a
function of the salient fields only (and is what `normalizeAd` uses whenever
no natural id field is truthy), and the Google id is stable whenever
`creativeId` is present — but the Google fallback id (no `creativeId`)
embeds the clock and `Math.random()`, so it differs between runs, and
`fetchedAt` always tracks the clock. -/
theorem C6_amended_normalize_determinism :
    (∀ (rawAd : ApifyRawAdItem) (brandName : Str) (dp : Str → Option Int) (now1 now2 : Nat),
      (normalizeAd rawAd brandName dp now1).id = (normalizeAd rawAd brandName dp now2).id) ∧
    (∀ raw1 raw2 : ApifyRawAdItem,
      raw1.pageID = raw2.pageID → raw1.adText = raw2.adText →
      raw1.imageUrl = raw2.imageUrl → raw1.videoUrl = raw2.videoUrl →
      raw1.startDate = raw2.startDate →
      generateAdId raw1 = generateAdId raw2) ∧
    (∀ (rawAd : ApifyRawAdItem) (brandName : Str) (dp : Str → Option Int) (now : Nat),
      truthy rawAd.id = false → truthy rawAd.adArchiveID = false →
      truthy rawAd.ad_archive_id = false → truthy rawAd.adid = false →
      (normalizeAd rawAd brandName dp now).id = generateAdId rawAd) ∧
    (∀ (raw : GoogleAdRawItem) (st salt1 salt2 : Str) (now1 now2 : Nat),
      truthy raw.creativeId = true →
      (googleNormalizeAd raw st salt1 now1).id = (googleNormalizeAd raw st salt2 now2).id) := by
  refine ⟨?_, ?_, ?_, ?_⟩
  · intro rawAd brandName dp now1 now2
    simp only [normalizeAd]
  · intro raw1 raw2 h1 h2 h3 h4 h5
    unfold generateAdId
    rw [h1, h2, h3, h4, h5]
  · intro rawAd brandName dp now h1 h2 h3 h4
    simp only [normalizeAd]
    rw [jsOrS_falsy _ _ h1, jsOrS_falsy _ _ h2, jsOrS_falsy _ _ h3, jsOrD_falsy _ _ h4]
  · intro raw st salt1 salt2 now1 now2 h
    simp only [googleNormalizeAd]
    rcases hc : raw.creativeId with _ | s
    · rw [hc] at h
      exact absurd h (by decide)
    · rw [hc] at h
      simp only [truthy, Bool.not_eq_true'] at h
      simp [jsOrD, h]

/-- Two Meta raw records with identical salient id fields, differing in
`pageName` only. -/
def rawSalientA : ApifyRawAdItem :=
  { pageID := some (str "1"), adText := some (str "buy now") }

/-- Same salient fields as `rawSalientA`, plus a `pageName`. -/
def rawSalientB : ApifyRawAdItem :=
  { pageID := some (str "1"), adText := some (str "buy now"),
    pageName := some (str "Acme") }

/-- Witness for the amended C6: concrete evaluations of each determinism
conjunct. -/
theorem C6_amended_normalize_determinism_witness :
    (normalizeAd { adText := some (str "buy now") } (str "Acme") (fun _ => none) 5).id =
      (normalizeAd { adText := some (str "buy now") } (str "Acme") (fun _ => none) 9).id ∧
    generateAdId rawSalientA = generateAdId rawSalientB ∧
    (normalizeAd { adText := some (str "buy now") } (str "Acme") (fun _ => none) 5).id =
      generateAdId { adText := some (str "buy now") } ∧
    (googleNormalizeAd { creativeId := some (str "c9") } (str "t") (str "s1") 0).id =
      (googleNormalizeAd { creativeId := some (str "c9") } (str "t") (str "s2") 7).id :=
  ⟨C6_amended_normalize_determinism.1 { adText := some (str "buy now") } (str "Acme")
      (fun _ => none) 5 9,
   C6_amended_normalize_determinism.2.1 rawSalientA rawSalientB rfl rfl rfl rfl rfl,
   C6_amended_normalize_determinism.2.2.1 { adText := some (str "buy now") } (str "Acme")
      (fun _ => none) 5 rfl rfl rfl rfl,
   C6_amended_normalize_determinism.2.2.2 { creativeId := some (str "c9") } (str "t")
      (str "s1") (str "s2") 0 7 (by decide)⟩

/-! ### Identity resolver name-relevance gate (C1) -/

/-- The textual relation of the claim: case-insensitive exact match, one
string a prefix of the other, or substring containment either way. -/
def nameRelated (name term : Str) : Bool :=
  jsToLower name == jsToLower term ||
  startsWithL (jsToLower name) (jsToLower term) ||
  startsWithL (jsToLower term) (jsToLower name) ||
  includesL (jsToLower name) (jsToLower term) ||
  includesL (jsToLower term) (jsToLower name)

theorem nameScore_ne_zero_related (name sl : Str) (h : nameScore name sl ≠ 0) :
    (jsToLower name == sl || startsWithL (jsToLower name) sl ||
      startsWithL sl (jsToLower name) || includesL (jsToLower name) sl ||
      includesL sl (jsToLower name)) = true := by
  simp only [nameScore] at h
  split at h
  · rename_i h1
    simp [h1]
  · split at h
    · rename_i h2
      simp only [Bool.or_eq_true] at h2 ⊢
      rcases h2 with h2 | h2 <;> simp [h2]
    · split at h
      · rename_i h3
        simp only [Bool.or_eq_true] at h3 ⊢
        rcases h3 with h3 | h3 <;> simp [h3]
      · exact absurd rfl h

theorem selectLoop_sound (sl : Str) (entries : List PageEntry) :
    ∀ (best : Option BestMatch) (b : BestMatch),
      (∀ b0, best = some b0 → nameScore b0.pageName sl ≠ 0) →
      selectLoop sl entries best = some b → nameScore b.pageName sl ≠ 0 := by
  induction entries with
  | nil =>
    intro best b hbest h
    simp only [selectLoop] at h
    exact hbest b h
  | cons e rest ih =>
    obtain ⟨pid, name, count⟩ := e
    intro best b hbest h
    simp only [selectLoop] at h
    by_cases h0 : nameScore name sl = 0
    · rw [if_pos h0] at h
      exact ih best b hbest h
    · rw [if_neg h0] at h
      cases hb : best with
      | none =>
        rw [hb] at h
        dsimp only at h
        refine ih _ b ?_ h
        intro b0 hb0
        injection hb0 with hb0
        rw [← hb0]
        exact h0
      | some bb =>
        rw [hb] at h
        dsimp only at h
        by_cases hcmp : bb.score < nameScore name sl + min count 50
        · rw [if_pos hcmp] at h
          refine ih _ b ?_ h
          intro b0 hb0
          injection hb0 with hb0
          rw [← hb0]
          exact h0
        · rw [if_neg hcmp] at h
          refine ih _ b ?_ h
          intro b0 hb0
          injection hb0 with hb0
          rw [← hb0]
          exact hbest bb (by rw [hb])

/-- Claim C1: whenever the identity resolver returns a candidate, that
candidate's display name has a textual relation to the search term
(case-insensitive exact match, one a prefix of the other, or substring
containment); a candidate with no textual relation is never selected,
regardless of its ad count. -/
theorem C1_resolver_name_relevance (ads : List Ad) (searchTerm : Str) (r : Str × Str)
    (h : findBestMatchingPage ads searchTerm = some r) :
    nameRelated r.2 searchTerm = true := by
  unfold findBestMatchingPage at h
  by_cases hm : (buildPageMap ads).isEmpty
  · rw [if_pos hm] at h
    cases h
  · rw [if_neg hm] at h
    cases hsel : selectLoop (jsToLower searchTerm) (buildPageMap ads) none with
    | none =>
      rw [hsel] at h
      cases h
    | some b =>
      rw [hsel] at h
      injection h with h'
      have hns := selectLoop_sound (jsToLower searchTerm) (buildPageMap ads) none b
        (by intro b0 hb0; cases hb0) hsel
      have hrel := nameScore_ne_zero_related b.pageName (jsToLower searchTerm) hns
      rw [← h']
      exact hrel

/-- A minimal normalized ad for the C1 witness. -/
def adW : Ad :=
  { id := str "ad1", brandName := str "Acme Corp", pageId := some (str "1"),
    platforms := [.unknown], format := .unknown, status := .unknown, fetchedAt := 0 }

/-- Witness for C1: on a concrete ad list the resolver picks the
`"Acme Corp"` page for search term `"Acme"`, whose name is prefix-related
to the term. -/
theorem C1_resolver_name_relevance_witness :
    findBestMatchingPage [adW] (str "Acme") = some (str "1", str "Acme Corp") ∧
    nameRelated (str "Acme Corp") (str "Acme") = true :=
  ⟨by decide,
    C1_resolver_name_relevance [adW] (str "Acme") (str "1", str "Acme Corp") (by decide)⟩

/-! ### Resolver page ids are never empty -/

theorem bumpPage_keys (m : List PageEntry) (pid name : Str)
    (hm : ∀ e ∈ m, e.1 ≠ []) (hp : pid ≠ []) :
    ∀ e ∈ bumpPage m pid name, e.1 ≠ [] := by
  induction m with
  | nil =>
    intro e he
    simp only [bumpPage, List.mem_singleton] at he
    rw [he]
    exact hp
  | cons hd rest ih =>
    obtain ⟨p, n, c⟩ := hd
    intro e he
    simp only [bumpPage] at he
    by_cases hpe : (p == pid) = true
    · rw [if_pos hpe] at he
      rcases List.mem_cons.mp he with he | he
      · rw [he]
        exact hm (p, n, c) (List.mem_cons_self _ _)
      · exact hm e (List.mem_cons_of_mem _ he)
    · rw [if_neg hpe] at he
      rcases List.mem_cons.mp he with he | he
      · rw [he]
        exact hm (p, n, c) (List.mem_cons_self _ _)
      · exact ih (fun e2 he2 => hm e2 (List.mem_cons_of_mem _ he2)) e he

theorem buildPageMap_keys (ads : List Ad) : ∀ e ∈ buildPageMap ads, e.1 ≠ [] := by
  unfold buildPageMap
  suffices hgen : ∀ (l : List Ad) (m : List PageEntry), (∀ e ∈ m, e.1 ≠ []) →
      ∀ e ∈ l.foldl (fun m ad =>
        match ad.pageId with
        | some pid => if pid.isEmpty then m else bumpPage m pid ad.brandName
        | none => m) m, e.1 ≠ [] by
    exact hgen ads [] (by intro e he; cases he)
  intro l
  induction l with
  | nil => intro m hm e he; exact hm e he
  | cons ad rest ih =>
    intro m hm e he
    simp only [List.foldl_cons] at he
    refine ih _ ?_ e he
    rcases hpid : ad.pageId with _ | pid
    · simpa [hpid] using hm
    · by_cases hemp : pid.isEmpty = true
      · simpa [hpid, hemp] using hm
      · simp only [hpid, hemp, Bool.false_eq_true, if_false]
        exact bumpPage_keys m pid ad.brandName hm
          (by intro hnil; rw [hnil] at hemp; exact hemp rfl)

theorem selectLoop_pid (sl : Str) (entries : List PageEntry) :
    ∀ (best : Option BestMatch) (b : BestMatch),
      (∀ b0, best = some b0 → b0.pageId ≠ []) →
      (∀ e ∈ entries, e.1 ≠ []) →
      selectLoop sl entries best = some b → b.pageId ≠ [] := by
  induction entries with
  | nil =>
    intro best b hbest _ h
    simp only [selectLoop] at h
    exact hbest b h
  | cons e rest ih =>
    obtain ⟨pid, name, count⟩ := e
    intro best b hbest hent h
    simp only [selectLoop] at h
    have hpid : pid ≠ [] := hent (pid, name, count) (List.mem_cons_self _ _)
    have hrest : ∀ e2 ∈ rest, e2.1 ≠ [] := fun e2 he2 => hent e2 (List.mem_cons_of_mem _ he2)
    by_cases h0 : nameScore name sl = 0
    · rw [if_pos h0] at h
      exact ih best b hbest hrest h
    · rw [if_neg h0] at h
      cases hb : best with
      | none =>
        rw [hb] at h
        dsimp only at h
        refine ih _ b ?_ hrest h
        intro b0 hb0
        injection hb0 with hb0
        rw [← hb0]
        exact hpid
      | some bb =>
        rw [hb] at h
        dsimp only at h
        by_cases hcmp : bb.score < nameScore name sl + min count 50
        · rw [if_pos hcmp] at h
          refine ih _ b ?_ hrest h
          intro b0 hb0
          injection hb0 with hb0
          rw [← hb0]
          exact hpid
        · rw [if_neg hcmp] at h
          refine ih _ b ?_ hrest h
          intro b0 hb0
          injection hb0 with hb0
          rw [← hb0]
          exact hbest bb (by rw [hb])

theorem findBest_pid_ne_nil (ads : List Ad) (searchTerm : Str) (r : Str × Str)
    (h : findBestMatchingPage ads searchTerm = some r) : r.1 ≠ [] := by
  unfold findBestMatchingPage at h
  by_cases hm : (buildPageMap ads).isEmpty
  · rw [if_pos hm] at h
    cases h
  · rw [if_neg hm] at h
    cases hsel : selectLoop (jsToLower searchTerm) (buildPageMap ads) none with
    | none =>
      rw [hsel] at h
      cases h
    | some b =>
      rw [hsel] at h
      injection h with h'
      have := selectLoop_pid (jsToLower searchTerm) (buildPageMap ads) none b
        (by intro b0 hb0; cases hb0) (buildPageMap_keys ads) hsel
      rw [← h']
      exact this

/-! ### Error handler shape -/

theorem handleError_fields (e : JsError) :
    (handleError e).success = false ∧ (handleError e).ads = [] ∧
    (handleError e).brandSource = none ∧ (handleError e).error.isSome = true ∧
    (handleError e).errorCode.isSome = true := by
  cases e <;> simp [handleError]

/-! ### Orchestrator case characterizations -/

theorem metaFetch_cases (env : MetaEnv) (cache : Brands) (brandName : Str)
    (options : FetchAdsOptions) :
    ((metaFetchAdsByBrand env cache brandName options).result.brandSource ≠
        some BrandSource.discovered ∧
      (metaFetchAdsByBrand env cache brandName options).didCacheWrite = false ∧
      (metaFetchAdsByBrand env cache brandName options).cache = cache) ∨
    (∃ (pid name : Str) (ads : List Ad),
      pid ≠ [] ∧
      (metaFetchAdsByBrand env cache brandName options).result.brandSource =
        some BrandSource.discovered ∧
      (metaFetchAdsByBrand env cache brandName options).didCacheWrite = true ∧
      (metaFetchAdsByBrand env cache brandName options).result.ads =
        ads.take (jsOrN options.maxAds metaDefaultMaxAds) ∧
      (metaFetchAdsByBrand env cache brandName options).result.totalFound =
        some ads.length ∧
      (∀ ad ∈ ads, ad.pageId = some pid) ∧
      (metaFetchAdsByBrand env cache brandName options).result.verifiedBrandName =
        some name ∧
      lookupBrandInCache (metaFetchAdsByBrand env cache brandName options).cache
        (jsTrim brandName) = some ⟨pid, name⟩) := by
  unfold metaFetchAdsByBrand
  dsimp only
  split
  · exact Or.inl ⟨by simp, rfl, rfl⟩
  · split
    · rename_i cachedBrand heq
      rcases hfp : fetchAdsByPageId env cachedBrand.pageId options with ⟨r, called⟩
      exact Or.inl ⟨by simp, rfl, rfl⟩
    · rename_i hlook
      split
      · rename_i e hrun
        refine Or.inl ⟨?_, rfl, rfl⟩
        rw [(handleError_fields e).2.2.1]
        simp
      · rename_i run hrun
        split
        · rename_i e hds
          refine Or.inl ⟨?_, rfl, rfl⟩
          rw [(handleError_fields e).2.2.1]
          simp
        · rename_i rawAds hds
          split
          · exact Or.inl ⟨by simp, rfl, rfl⟩
          · rename_i hne
            split
            · exact Or.inl ⟨by simp, rfl, rfl⟩
            · rename_i best hbest
              have hpid : best.1 ≠ [] :=
                findBest_pid_ne_nil _ _ best hbest
              split
              · rename_i hemp
                exact absurd (List.isEmpty_iff.mp hemp) hpid
              · rename_i hemp
                dsimp only
                refine Or.inr ⟨best.1, best.2,
                  (rawAds.map fun rawAd =>
                    normalizeAd rawAd (jsTrim brandName) env.dp env.now).filter
                    (fun ad => ad.pageId == some best.1),
                  hpid, rfl, rfl, rfl, rfl, ?_, rfl, ?_⟩
                · intro ad had
                  exact eq_of_beq (List.mem_filter.mp had).2
                · unfold lookupBrandInCache at hlook ⊢
                  unfold saveBrandToCache
                  rw [hlook]
                  exact getEntry_append_last cache (normKey (jsTrim brandName))
                    ⟨best.1, best.2⟩ hlook

theorem googleFetch_cases (env : GoogleEnv) (cache : Advertisers) (brandName : Str)
    (options : FetchAdsOptions) :
    ((googleFetchAdsByBrand env cache brandName options).result.brandSource ≠
        some BrandSource.discovered ∧
      (googleFetchAdsByBrand env cache brandName options).didCacheWrite = false ∧
      (googleFetchAdsByBrand env cache brandName options).cache = cache) ∨
    ((googleFetchAdsByBrand env cache brandName options).result.brandSource =
        some BrandSource.discovered ∧
      (googleFetchAdsByBrand env cache brandName options).didCacheWrite = true ∧
      ∃ ads : List Ad,
        (googleFetchAdsByBrand env cache brandName options).result.ads =
          ads.take (jsOrN options.maxAds googleDefaultMaxAds) ∧
        (googleFetchAdsByBrand env cache brandName options).result.totalFound =
          some ads.length) := by
  unfold googleFetchAdsByBrand
  dsimp only
  split
  · exact Or.inl ⟨by simp, rfl, rfl⟩
  · split
    · rename_i cached heq
      rcases hfp : fetchAdsByAdvertiserId env cached.advertiserId options with ⟨r, called⟩
      exact Or.inl ⟨by simp, rfl, rfl⟩
    · rename_i hlook
      split
      · exact Or.inl ⟨by simp, rfl, rfl⟩
      · rename_i run hrun
        split
        · exact Or.inl ⟨by simp, rfl, rfl⟩
        · split
          · exact Or.inl ⟨by simp, rfl, rfl⟩
          · rename_i items hds
            split
            · exact Or.inl ⟨by simp, rfl, rfl⟩
            · rename_i firstAd rest
              split
              · rename_i htr
                dsimp only
                refine Or.inr ⟨by simp [htr], rfl,
                  mapWithIndex (fun i item =>
                    googleNormalizeAd item (jsTrim brandName) (env.salts i) env.now)
                    (firstAd :: rest), rfl, rfl⟩
              · rename_i htr
                dsimp only
                refine Or.inl ⟨by simp [htr], rfl, rfl⟩

/-! ### Failure shapes of the orchestrators (C8) -/

theorem fetchAdsByPageId_wf (env : MetaEnv) (pid : Str) (options : FetchAdsOptions)
    (h : (fetchAdsByPageId env pid options).1.success = false) :
    (fetchAdsByPageId env pid options).1.ads = [] ∧
    (fetchAdsByPageId env pid options).1.error.isSome = true ∧
    (fetchAdsByPageId env pid options).1.errorCode.isSome = true := by
  revert h
  unfold fetchAdsByPageId
  dsimp only
  split
  · exact fun _ => ⟨rfl, rfl, rfl⟩
  · split
    · rename_i e hrun
      exact fun _ => ⟨(handleError_fields e).2.1, (handleError_fields e).2.2.2.1,
        (handleError_fields e).2.2.2.2⟩
    · rename_i run hrun
      split
      · rename_i e hds
        exact fun _ => ⟨(handleError_fields e).2.1, (handleError_fields e).2.2.2.1,
          (handleError_fields e).2.2.2.2⟩
      · split
        · intro h
          simp at h
        · intro h
          simp at h

theorem googleCatch_fields (e : JsError) :
    (googleCatch e).success = false ∧ (googleCatch e).ads = [] ∧
    (googleCatch e).error.isSome = true ∧ (googleCatch e).errorCode.isSome = true := by
  cases e <;> simp [googleCatch]

theorem fetchAdsByAdvertiserId_wf (env : GoogleEnv) (aid : Str) (options : FetchAdsOptions)
    (h : (fetchAdsByAdvertiserId env aid options).1.success = false) :
    (fetchAdsByAdvertiserId env aid options).1.ads = [] ∧
    (fetchAdsByAdvertiserId env aid options).1.error.isSome = true ∧
    (fetchAdsByAdvertiserId env aid options).1.errorCode.isSome = true := by
  revert h
  unfold fetchAdsByAdvertiserId
  dsimp only
  split
  · rename_i e hrun
    exact fun _ => ⟨(googleCatch_fields e).2.1, (googleCatch_fields e).2.2.1,
      (googleCatch_fields e).2.2.2⟩
  · split
    · exact fun _ => ⟨rfl, rfl, rfl⟩
    · split
      · rename_i e hds
        exact fun _ => ⟨(googleCatch_fields e).2.1, (googleCatch_fields e).2.2.1,
          (googleCatch_fields e).2.2.2⟩
      · intro h
        simp at h

theorem metaFetch_failure_shape (env : MetaEnv) (cache : Brands) (brandName : Str)
    (options : FetchAdsOptions)
    (h : (metaFetchAdsByBrand env cache brandName options).result.success = false) :
    (metaFetchAdsByBrand env cache brandName options).result.ads = [] ∧
    (metaFetchAdsByBrand env cache brandName options).result.error.isSome = true ∧
    (metaFetchAdsByBrand env cache brandName options).result.errorCode.isSome = true := by
  revert h
  unfold metaFetchAdsByBrand
  dsimp only
  split
  · exact fun _ => ⟨rfl, rfl, rfl⟩
  · split
    · rename_i cachedBrand heq
      rcases hfp : fetchAdsByPageId env cachedBrand.pageId options with ⟨r, called⟩
      intro h
      have hr : r.success = false := h
      have := fetchAdsByPageId_wf env cachedBrand.pageId options (by rw [hfp]; exact hr)
      rw [hfp] at this
      exact ⟨this.1, this.2.1, this.2.2⟩
    · rename_i hlook
      split
      · rename_i e hrun
        exact fun _ => ⟨(handleError_fields e).2.1, (handleError_fields e).2.2.2.1,
          (handleError_fields e).2.2.2.2⟩
      · rename_i run hrun
        split
        · rename_i e hds
          exact fun _ => ⟨(handleError_fields e).2.1, (handleError_fields e).2.2.2.1,
            (handleError_fields e).2.2.2.2⟩
        · split
          · intro h
            simp at h
          · split
            · intro h
              simp at h
            · rename_i best hbest
              split
              · intro h
                simp at h
              · intro h
                simp at h

theorem googleFetch_failure_shape (env : GoogleEnv) (cache : Advertisers) (brandName : Str)
    (options : FetchAdsOptions)
    (h : (googleFetchAdsByBrand env cache brandName options).result.success = false) :
    (googleFetchAdsByBrand env cache brandName options).result.ads = [] ∧
    (googleFetchAdsByBrand env cache brandName options).result.error.isSome = true ∧
    (googleFetchAdsByBrand env cache brandName options).result.errorCode.isSome = true := by
  revert h
  unfold googleFetchAdsByBrand
  dsimp only
  split
  · exact fun _ => ⟨rfl, rfl, rfl⟩
  · split
    · rename_i cached heq
      rcases hfp : fetchAdsByAdvertiserId env cached.advertiserId options with ⟨r, called⟩
      intro h
      have hr : r.success = false := h
      have := fetchAdsByAdvertiserId_wf env cached.advertiserId options (by rw [hfp]; exact hr)
      rw [hfp] at this
      exact ⟨this.1, this.2.1, this.2.2⟩
    · rename_i hlook
      split
      · rename_i e hrun
        exact fun _ => ⟨(googleCatch_fields e).2.1, (googleCatch_fields e).2.2.1,
          (googleCatch_fields e).2.2.2⟩
      · rename_i run hrun
        split
        · exact fun _ => ⟨rfl, rfl, rfl⟩
        · split
          · rename_i e hds
            exact fun _ => ⟨(googleCatch_fields e).2.1, (googleCatch_fields e).2.2.1,
              (googleCatch_fields e).2.2.2⟩
          · split
            · intro h
              simp at h
            · rename_i firstAd rest
              split
              · intro h
                simp at h
              · intro h
                simp at h

/-! ### Claim C4: discovered-path filtering and cache writes -/

/-- First Google raw item of the C4 counterexample (advertiser `AR1`). -/
def gItemA : GoogleAdRawItem :=
  { advertiserId := some (str "AR1"), advertiserName := some (str "Acme Corp"),
    creativeId := some (str "c1") }

/-- Second Google raw item of the C4 counterexample (advertiser `AR2`). -/
def gItemB : GoogleAdRawItem :=
  { advertiserId := some (str "AR2"), advertiserName := some (str "Widgets Inc"),
    creativeId := some (str "c2") }

/-- A Google environment whose cold search returns items from two different
advertisers. -/
def gEnvTwoAdvertisers : GoogleEnv :=
  ⟨.ok ⟨str "run1", .SUCCEEDED, str "ds1"⟩, .error .nonError,
    fun _ => .ok [gItemA, gItemB], fun _ => str "s", 0⟩

/-- Counterexample to claim C4: the Google orchestrator resolves the
identity of the first item (`AR1`, reported as discovered) but never filters
the normalized ads to that identity, so the returned list still contains the
`AR2` ad. -/
theorem C4_google_no_filter_cex :
    (googleFetchAdsByBrand gEnvTwoAdvertisers [] (str "Acme Corp")
        { maxAds := some 5 }).result.brandSource = some .discovered ∧
    (googleFetchAdsByBrand gEnvTwoAdvertisers [] (str "Acme Corp")
        { maxAds := some 5 }).result.verifiedBrandName = some (str "Acme Corp") ∧
    ¬ (∀ ad ∈ (googleFetchAdsByBrand gEnvTwoAdvertisers [] (str "Acme Corp")
        { maxAds := some 5 }).result.ads, ad.pageId = some (str "AR1")) := by
  refine ⟨by decide, by decide, by decide⟩

/-- Claim C4 (amended): on the Meta orchestrator the claim holds as stated —
on every discovered outcome all returned ads carry the resolved page id,
truncation to `maxAds` happens after filtering (the returned count is
`min maxAds totalFound` where `totalFound` counts the ads of the resolved
page), the cache write happens exactly on the discovered path with the
non-empty resolved id, and the written entry is observable in the returned
cache.  The Google orchestrator writes the cache exactly on its discovered
path too, but it performs no identity filtering: it truncates the full
normalized list to `maxAds`. -/
theorem C4_amended_discovered_path :
    (∀ (env : MetaEnv) (cache : Brands) (brandName : Str) (options : FetchAdsOptions),
      (metaFetchAdsByBrand env cache brandName options).result.brandSource =
        some BrandSource.discovered →
      ∃ pid : Str, pid ≠ [] ∧
        (∀ ad ∈ (metaFetchAdsByBrand env cache brandName options).result.ads,
          ad.pageId = some pid) ∧
        (metaFetchAdsByBrand env cache brandName options).result.ads.length =
          min (jsOrN options.maxAds metaDefaultMaxAds)
            ((metaFetchAdsByBrand env cache brandName options).result.totalFound.getD 0) ∧
        (metaFetchAdsByBrand env cache brandName options).didCacheWrite = true ∧
        lookupBrandInCache (metaFetchAdsByBrand env cache brandName options).cache
            (jsTrim brandName) =
          some ⟨pid,
            ((metaFetchAdsByBrand env cache brandName options).result.verifiedBrandName).getD
              []⟩) ∧
    (∀ (env : MetaEnv) (cache : Brands) (brandName : Str) (options : FetchAdsOptions),
      (metaFetchAdsByBrand env cache brandName options).didCacheWrite = true →
      (metaFetchAdsByBrand env cache brandName options).result.brandSource =
        some BrandSource.discovered) ∧
    (∀ (env : MetaEnv) (cache : Brands) (brandName : Str) (options : FetchAdsOptions),
      (metaFetchAdsByBrand env cache brandName options).didCacheWrite = false →
      (metaFetchAdsByBrand env cache brandName options).cache = cache) ∧
    (∀ (env : GoogleEnv) (cache : Advertisers) (brandName : Str) (options : FetchAdsOptions),
      (googleFetchAdsByBrand env cache brandName options).didCacheWrite = true ↔
      (googleFetchAdsByBrand env cache brandName options).result.brandSource =
        some BrandSource.discovered) ∧
    (∀ (env : GoogleEnv) (cache : Advertisers) (brandName : Str) (options : FetchAdsOptions),
      (googleFetchAdsByBrand env cache brandName options).result.brandSource =
        some BrandSource.discovered →
      (googleFetchAdsByBrand env cache brandName options).result.ads.length =
        min (jsOrN options.maxAds googleDefaultMaxAds)
          ((googleFetchAdsByBrand env cache brandName options).result.totalFound.getD 0)) := by
  refine ⟨?_, ?_, ?_, ?_, ?_⟩
  · intro env cache brandName options hdisc
    rcases metaFetch_cases env cache brandName options with h | h
    · exact absurd hdisc h.1
    · obtain ⟨pid, name, ads, hpid, _, hwrote, hads, htot, hmem, hver, hlookup⟩ := h
      refine ⟨pid, hpid, ?_, ?_, hwrote, ?_⟩
      · intro ad had
        rw [hads] at had
        exact hmem ad (List.take_subset _ _ had)
      · rw [hads, htot, List.length_take]
        rfl
      · rw [hver]
        exact hlookup
  · intro env cache brandName options hw
    rcases metaFetch_cases env cache brandName options with h | h
    · rw [h.2.1] at hw
      cases hw
    · obtain ⟨pid, name, ads, _, hdisc, _⟩ := h
      exact hdisc
  · intro env cache brandName options hw
    rcases metaFetch_cases env cache brandName options with h | h
    · exact h.2.2
    · obtain ⟨pid, name, ads, _, _, hw2, _⟩ := h
      rw [hw2] at hw
      cases hw
  · intro env cache brandName options
    rcases googleFetch_cases env cache brandName options with h | h
    · exact iff_of_false (by rw [h.2.1]; simp) h.1
    · exact iff_of_true h.2.1 h.1
  · intro env cache brandName options hdisc
    rcases googleFetch_cases env cache brandName options with h | h
    · exact absurd hdisc h.1
    · obtain ⟨_, _, ads, hads, htot⟩ := h
      rw [hads, htot, List.length_take]
      rfl

/-- A Meta raw record with a natural id and a page for the C4 witness. -/
def rawW2 : ApifyRawAdItem :=
  { id := some (str "ad1"), pageID := some (str "1"), pageName := some (str "Acme Corp") }

/-- A Meta environment whose cold search succeeds and yields `rawW2`. -/
def discMetaEnv : MetaEnv :=
  ⟨fun _ => .ok ⟨str "r", .SUCCEEDED, str "d"⟩, fun _ => .ok [rawW2], fun _ => none, 0⟩

/-- Witness for the amended C4: a concrete Meta discovered run satisfies the
filter/truncate/cache-write conjunct. -/
theorem C4_amended_discovered_path_witness :
    ∃ pid : Str, pid ≠ [] ∧
      (∀ ad ∈ (metaFetchAdsByBrand discMetaEnv [] (str "Acme") {}).result.ads,
        ad.pageId = some pid) ∧
      (metaFetchAdsByBrand discMetaEnv [] (str "Acme") {}).result.ads.length =
        min (jsOrN ({} : FetchAdsOptions).maxAds metaDefaultMaxAds)
          ((metaFetchAdsByBrand discMetaEnv [] (str "Acme") {}).result.totalFound.getD 0) ∧
      (metaFetchAdsByBrand discMetaEnv [] (str "Acme") {}).didCacheWrite = true ∧
      lookupBrandInCache (metaFetchAdsByBrand discMetaEnv [] (str "Acme") {}).cache
          (jsTrim (str "Acme")) =
        some ⟨pid,
          ((metaFetchAdsByBrand discMetaEnv [] (str "Acme") {}).result.verifiedBrandName).getD
            []⟩ :=
  C4_amended_discovered_path.1 discMetaEnv [] (str "Acme") {} (by decide)

/-! ### Claim C8: error containment at the orchestrator boundary -/

theorem isEmpty_false_of_ne_nil {l : Str} (h : l ≠ []) : l.isEmpty = false := by
  cases l with
  | nil => exact absurd rfl h
  | cons a t => rfl

theorem googleCatch_errorCode (e : JsError) : (googleCatch e).errorCode = some .UNKNOWN := by
  cases e <;> rfl

/-- Claim C8: no failure escapes `fetchAdsByBrand` as an exception — the
error handler always produces a typed failure (`success = false`, empty ads,
an error message and a taxonomy code); every unsuccessful result of either
orchestrator has that shape; and each injected failure (retry-controller
error, dataset fetch error, Google actor exception, Google non-succeeded
terminal status) yields such a typed failure with the expected code. -/
theorem C8_error_containment :
    (∀ e : JsError, (handleError e).success = false ∧ (handleError e).ads = [] ∧
      (handleError e).error.isSome = true ∧ (handleError e).errorCode.isSome = true) ∧
    (∀ (env : MetaEnv) (cache : Brands) (brandName : Str) (options : FetchAdsOptions),
      (metaFetchAdsByBrand env cache brandName options).result.success = false →
      (metaFetchAdsByBrand env cache brandName options).result.ads = [] ∧
      (metaFetchAdsByBrand env cache brandName options).result.error.isSome = true ∧
      (metaFetchAdsByBrand env cache brandName options).result.errorCode.isSome = true) ∧
    (∀ (env : MetaEnv) (cache : Brands) (brandName : Str) (options : FetchAdsOptions)
      (e : JsError),
      lookupBrandInCache cache (jsTrim brandName) = none →
      runActorWithRetry defaultMaxRetries env.attempts 1 = .error e →
      (metaFetchAdsByBrand env cache brandName options).result.success = false) ∧
    (∀ (env : MetaEnv) (cache : Brands) (brandName : Str) (options : FetchAdsOptions)
      (run : ActorRun) (e : JsError),
      jsTrim brandName ≠ [] →
      lookupBrandInCache cache (jsTrim brandName) = none →
      runActorWithRetry defaultMaxRetries env.attempts 1 = .ok run →
      env.datasetResult run.defaultDatasetId = .error e →
      (metaFetchAdsByBrand env cache brandName options).result.success = false ∧
      (metaFetchAdsByBrand env cache brandName options).result.errorCode =
        some .NETWORK_ERROR) ∧
    (∀ (env : GoogleEnv) (cache : Advertisers) (brandName : Str) (options : FetchAdsOptions),
      (googleFetchAdsByBrand env cache brandName options).result.success = false →
      (googleFetchAdsByBrand env cache brandName options).result.ads = [] ∧
      (googleFetchAdsByBrand env cache brandName options).result.error.isSome = true ∧
      (googleFetchAdsByBrand env cache brandName options).result.errorCode.isSome = true) ∧
    (∀ (env : GoogleEnv) (cache : Advertisers) (brandName : Str) (options : FetchAdsOptions)
      (e : JsError),
      jsTrim brandName ≠ [] →
      lookupInCache cache (jsTrim brandName) = none →
      env.runResult = .error e →
      (googleFetchAdsByBrand env cache brandName options).result.success = false ∧
      (googleFetchAdsByBrand env cache brandName options).result.errorCode =
        some .UNKNOWN) ∧
    (∀ (env : GoogleEnv) (cache : Advertisers) (brandName : Str) (options : FetchAdsOptions)
      (run : ActorRun),
      jsTrim brandName ≠ [] →
      lookupInCache cache (jsTrim brandName) = none →
      env.runResult = .ok run → run.status ≠ .SUCCEEDED →
      (googleFetchAdsByBrand env cache brandName options).result.success = false ∧
      (googleFetchAdsByBrand env cache brandName options).result.errorCode =
        some .RUN_FAILED) := by
  refine ⟨?_, ?_, ?_, ?_, ?_, ?_, ?_⟩
  · intro e
    exact ⟨(handleError_fields e).1, (handleError_fields e).2.1,
      (handleError_fields e).2.2.2.1, (handleError_fields e).2.2.2.2⟩
  · exact metaFetch_failure_shape
  · intro env cache brandName options e hlook hrun
    unfold metaFetchAdsByBrand
    dsimp only
    split
    · rfl
    · rw [hlook]
      dsimp only
      rw [hrun]
      dsimp only
      exact (handleError_fields e).1
  · intro env cache brandName options run e hne hlook hrun hds
    have h1 : brandName ≠ [] := by
      intro hbn
      rw [hbn] at hne
      exact hne rfl
    have hfd : fetchDatasetItems env run.defaultDatasetId =
        .error (.apify (str "Failed to fetch results from dataset") .NETWORK_ERROR) := by
      unfold fetchDatasetItems
      rw [hds]
    unfold metaFetchAdsByBrand
    dsimp only
    split
    · rename_i hcondT
      rw [isEmpty_false_of_ne_nil h1, isEmpty_false_of_ne_nil hne] at hcondT
      simp at hcondT
    · rw [hlook]
      dsimp only
      rw [hrun]
      dsimp only
      rw [hfd]
      dsimp only
      exact ⟨rfl, rfl⟩
  · exact googleFetch_failure_shape
  · intro env cache brandName options e hne hlook hrun
    have h1 : brandName ≠ [] := by
      intro hbn
      rw [hbn] at hne
      exact hne rfl
    unfold googleFetchAdsByBrand
    dsimp only
    split
    · rename_i hcondT
      rw [isEmpty_false_of_ne_nil h1, isEmpty_false_of_ne_nil hne] at hcondT
      simp at hcondT
    · rw [hlook]
      dsimp only
      rw [hrun]
      dsimp only
      exact ⟨(googleCatch_fields e).1, googleCatch_errorCode e⟩
  · intro env cache brandName options run hne hlook hrun hstat
    have h1 : brandName ≠ [] := by
      intro hbn
      rw [hbn] at hne
      exact hne rfl
    have hb : (run.status != RunStatus.SUCCEEDED) = true := by
      simp [bne_iff_ne, hstat]
    unfold googleFetchAdsByBrand
    dsimp only
    split
    · rename_i hcondT
      rw [isEmpty_false_of_ne_nil h1, isEmpty_false_of_ne_nil hne] at hcondT
      simp at hcondT
    · rw [hlook]
      dsimp only
      rw [hrun]
      dsimp only
      rw [if_pos hb]
      exact ⟨rfl, rfl⟩

/-- Witness for C8: with a failing first actor call, the Meta orchestrator
returns a typed failure, and with a non-succeeded Google run the Google
orchestrator reports `RUN_FAILED`. -/
theorem C8_error_containment_witness :
    ((handleError (.generic (str "socket hang up"))).success = false ∧
      (handleError (.generic (str "socket hang up"))).ads = [] ∧
      (handleError (.generic (str "socket hang up"))).error.isSome = true ∧
      (handleError (.generic (str "socket hang up"))).errorCode.isSome = true) ∧
    (metaFetchAdsByBrand trivMetaEnv [] (str "Acme") {}).result.success = false ∧
    ((googleFetchAdsByBrand
        ⟨.ok ⟨str "r", .FAILED, str "d"⟩, .error .nonError, fun _ => .ok [], fun _ => [], 0⟩
        [] (str "Acme") {}).result.success = false ∧
      (googleFetchAdsByBrand
        ⟨.ok ⟨str "r", .FAILED, str "d"⟩, .error .nonError, fun _ => .ok [], fun _ => [], 0⟩
        [] (str "Acme") {}).result.errorCode = some .RUN_FAILED) :=
  ⟨C8_error_containment.1 (.generic (str "socket hang up")),
    C8_error_containment.2.2.1 trivMetaEnv [] (str "Acme") {} .nonError (by decide) (by decide),
    C8_error_containment.2.2.2.2.2.2
      ⟨.ok ⟨str "r", .FAILED, str "d"⟩, .error .nonError, fun _ => .ok [], fun _ => [], 0⟩
      [] (str "Acme") {} ⟨str "r", .FAILED, str "d"⟩ (by decide) (by decide) rfl (by decide)⟩

end Upspring
